import Mathlib

/-!
# The pre-block finalization handler of `mod/runtime/abci/preblock.go`

A shallow embedding of `Handler.PreBlocker` and `Handler.callNextPreblockHandler`.

* The state behind an `sdk.Context` is a key-value store. A context handle (`Ctx`)
  names the store it points to: the durable one, or the branch opened by
  `ctx.CacheContext()`.
* A collaborator (chain service method, next handler) is a function from the store
  contents it can read through its context to the writes it issues, in order, and
  the error it returns (`none` is Go's `nil`).
* Every collaborator invocation appends an `Event` to the trace of the `World`, so
  that "is invoked" and "is not invoked" are statements about the trace.
* Every record emitted through the logger is kept with the number of invocations
  made so far, so that the log is ordered against the trace.
-/

namespace BeaconKit

/-- A byte string. -/
abbrev Bytes := List Nat

/-- The fields of `cometabci.RequestFinalizeBlock` which the handler and the
extractors read. `Height` is an `int64` in the source. -/
structure RequestFinalizeBlock where
  Txs : List Bytes
  Height : Int
deriving DecidableEq, Repr

/-- The conversion `primitives.Slot(req.Height)`: a signed 64-bit height
reinterpreted as an unsigned 64-bit slot. -/
def Slot (height : Int) : Nat := (height % 2 ^ 64).toNat

/-- The two positions of `h.cfg` which `PreBlocker` reads (both `uint`). -/
structure Config where
  BeaconBlockPosition : Nat
  BlobSidecarsBlockPosition : Nat
deriving DecidableEq, Repr

/-! ## The transactional context -/

/-- Modelled from the spec: the key-value contents behind an `sdk.Context`
(cosmos-sdk, an external library): at most one value per key. -/
abbrev Store := List (Bytes × Bytes)

/-- Read a key. -/
def Store.get (s : Store) (k : Bytes) : Option Bytes :=
  (s.find? (fun p => p.1 == k)).map (fun p => p.2)

/-- Set a key, replacing any earlier value. -/
def Store.set (s : Store) (k v : Bytes) : Store :=
  (k, v) :: s.filter (fun p => p.1 != k)

/-- Delete a key. -/
def Store.delete (s : Store) (k : Bytes) : Store :=
  s.filter (fun p => p.1 != k)

/-- A single write issued through a context. -/
inductive WriteOp where
  | set (k v : Bytes)
  | delete (k : Bytes)
deriving DecidableEq, Repr

/-- The key a write touches. -/
def WriteOp.key : WriteOp → Bytes
  | .set k _ => k
  | .delete k => k

/-- Apply one write to a store. -/
def WriteOp.apply : WriteOp → Store → Store
  | .set k v, s => s.set k v
  | .delete k, s => s.delete k

/-- Apply a sequence of writes, oldest first. -/
def applyWrites (ws : List WriteOp) (s : Store) : Store :=
  ws.foldl (fun acc op => op.apply acc) s

/-- Modelled from the spec: a read through the speculative context: the latest
buffered write to the key decides, otherwise the read falls through to the parent. -/
def overlayGet (dirty : List WriteOp) (parent : Store) (k : Bytes) : Option Bytes :=
  match dirty.reverse.find? (fun op => op.key == k) with
  | some (.set _ v) => some v
  | some (.delete _) => none
  | none => parent.get k

/-- Which store a context handle points to: the durable one which `PreBlocker`
received, or the speculative branch returned by `ctx.CacheContext()`. -/
inductive Ctx where
  | durable
  | cache
deriving DecidableEq, Repr

/-- What a collaborator does when invoked: its writes, in order, and its result. -/
structure Outcome (E : Type) where
  writes : List WriteOp
  err : Option E
deriving DecidableEq, Repr

/-! ## Collaborators -/

/-- The methods of `h.chainService` which `PreBlocker` calls.
`ActiveForkVersionForSlot` stands for `BeaconCfg().ActiveForkVersionForSlot`. -/
structure ChainService (E B S : Type) where
  ProcessSlot : Store → Outcome E
  ActiveForkVersionForSlot : Nat → Nat
  ProcessBeaconBlock : Store → B → S → Outcome E
  PostBlockProcess : Store → B → Outcome E

/-- The two extraction functions of package `abcitypes`, which `PreBlocker` calls. -/
structure Abcitypes (E B S : Type) where
  ReadOnlyBeaconBlockFromABCIRequest : RequestFinalizeBlock → Nat → Nat → Except E B
  GetBlobSideCars : RequestFinalizeBlock → Nat → Except E S

/-- The fields of `Handler` which `PreBlocker` uses. `nextPreblock = none` is the
nil function value. -/
structure Handler (E B S : Type) where
  cfg : Config
  chainService : ChainService E B S
  nextPreblock : Option (Store → RequestFinalizeBlock → Outcome E)

/-! ## Observations -/

/-- Log levels used by `PreBlocker`. -/
inductive Level where
  | error
  | warn
deriving DecidableEq, Repr

/-- A record emitted through `logger` (which carries `"module", "pre-block"`). -/
structure LogRecord (E : Type) where
  level : Level
  msg : String
  err : E
deriving DecidableEq, Repr

/-- A record as it sits in the log of a call: the record, and how many invocations
the call had made when the record was emitted. -/
structure Emitted (E : Type) where
  after : Nat
  record : LogRecord E
deriving DecidableEq, Repr

/-- One invocation made by `PreBlocker`, with the arguments it passed. For a call
taking a context the event records the handle and the store contents visible
through it at the time of the call. -/
inductive Event (E B S : Type) where
  | ProcessSlot (ctx : Ctx) (seen : Store)
  | ReadOnlyBeaconBlockFromABCIRequest (req : RequestFinalizeBlock) (pos : Nat) (forkVersion : Nat)
  | GetBlobSideCars (req : RequestFinalizeBlock) (pos : Nat)
  | CacheContext (ctx : Ctx)
  | ProcessBeaconBlock (ctx : Ctx) (seen : Store) (blk : B) (sidecars : S)
  | write (flushed : List WriteOp)
  | PostBlockProcess (ctx : Ctx) (seen : Store) (blk : B)
  | nextPreblock (ctx : Ctx) (seen : Store) (req : RequestFinalizeBlock)
deriving DecidableEq, Repr

/-- The collaborator an event is an invocation of. -/
inductive Kind where
  | ProcessSlot
  | ReadOnlyBeaconBlockFromABCIRequest
  | GetBlobSideCars
  | CacheContext
  | ProcessBeaconBlock
  | write
  | PostBlockProcess
  | nextPreblock
deriving DecidableEq, Repr

/-- The kind of an event. -/
def Event.kind {E B S : Type} : Event E B S → Kind
  | .ProcessSlot _ _ => .ProcessSlot
  | .ReadOnlyBeaconBlockFromABCIRequest _ _ _ => .ReadOnlyBeaconBlockFromABCIRequest
  | .GetBlobSideCars _ _ => .GetBlobSideCars
  | .CacheContext _ => .CacheContext
  | .ProcessBeaconBlock _ _ _ _ => .ProcessBeaconBlock
  | .write _ => .write
  | .PostBlockProcess _ _ _ => .PostBlockProcess
  | .nextPreblock _ _ _ => .nextPreblock

/-- How many times a collaborator was invoked in a trace. -/
def calls {E B S : Type} (k : Kind) (tr : List (Event E B S)) : Nat :=
  (tr.filter (fun ev => decide (ev.kind = k))).length

/-! ## The world threaded through a call -/

/-- Everything a call of `PreBlocker` can change or emit. `cache` holds the
buffered writes of the speculative branch once `CacheContext` has opened it. -/
structure World (E B S : Type) where
  durable : Store
  cache : Option (List WriteOp)
  logs : List (Emitted E)
  trace : List (Event E B S)

/-- The world in which a call starts: the durable store as received, no
speculative branch, nothing logged, nothing invoked. -/
def World.start {E B S : Type} (s : Store) : World E B S :=
  { durable := s, cache := none, logs := [], trace := [] }

/-- The store contents visible through a context handle. -/
def World.view {E B S : Type} (w : World E B S) : Ctx → Store
  | .durable => w.durable
  | .cache => applyWrites (w.cache.getD []) w.durable

/-- Writes issued through a context handle: directly into the durable store, or
into the buffer of the speculative branch. -/
def World.put {E B S : Type} (w : World E B S) : Ctx → List WriteOp → World E B S
  | .durable, ws => { w with durable := applyWrites ws w.durable }
  | .cache, ws => { w with cache := some (w.cache.getD [] ++ ws) }

/-- Append an invocation to the trace. -/
def World.record {E B S : Type} (w : World E B S) (ev : Event E B S) : World E B S :=
  { w with trace := w.trace ++ [ev] }

/-- Append a log record, noting how many invocations have been made so far. -/
def World.log {E B S : Type} (w : World E B S) (r : LogRecord E) : World E B S :=
  { w with logs := w.logs ++ [{ after := w.trace.length, record := r }] }

/-- Invoke a collaborator with a context: record the invocation, let it read
what the context shows and issue its writes through the same context. -/
def World.invoke {E B S : Type} (w : World E B S) (ev : Store → Event E B S) (c : Ctx)
    (f : Store → Outcome E) : World E B S × Option E :=
  let o := f (w.view c)
  (((w.record (ev (w.view c))).put c o.writes), o.err)

/-- Modelled from the spec: `ctx.CacheContext()` (cosmos-sdk): opens a speculative
branch of the durable store with no buffered writes. The returned context is
`Ctx.cache`; the returned function is `World.write`. -/
def World.CacheContext {E B S : Type} (w : World E B S) : World E B S :=
  { w with cache := some [], trace := w.trace ++ [Event.CacheContext Ctx.durable] }

/-- Modelled from the spec: the `write` function returned by `ctx.CacheContext()`:
merges the buffered writes of the branch into the durable store. -/
def World.write {E B S : Type} (w : World E B S) : World E B S :=
  { w with
    durable := applyWrites (w.cache.getD []) w.durable
    cache := some []
    trace := w.trace ++ [Event.write (w.cache.getD [])] }

/-! ## The handler -/

/-- `Handler.callNextPreblockHandler` (preblock.go:101-112). -/
def callNextPreblockHandler {E B S : Type} (h : Handler E B S) (w : World E B S)
    (req : RequestFinalizeBlock) : World E B S × Option E :=
  match h.nextPreblock with
  | none => (w, none)
  | some next => w.invoke (fun seen => Event.nextPreblock Ctx.durable seen req) Ctx.durable
      (fun seen => next seen req)

/-- `Handler.PreBlocker` (preblock.go:38-98). The context `ctx` is `Ctx.durable`. -/
def PreBlocker {E B S : Type} (t : Abcitypes E B S) (h : Handler E B S) (w : World E B S)
    (req : RequestFinalizeBlock) : World E B S × Option E :=
  -- Process the Slot.
  match w.invoke (Event.ProcessSlot Ctx.durable) Ctx.durable h.chainService.ProcessSlot with
  | (w, some err) =>
    (w.log { level := Level.error, msg := "failed to process slot", err := err }, some err)
  | (w, none) =>
    -- Extract the beacon block from the ABCI request.
    let forkVersion := h.chainService.ActiveForkVersionForSlot (Slot req.Height)
    let w := w.record
      (Event.ReadOnlyBeaconBlockFromABCIRequest req h.cfg.BeaconBlockPosition forkVersion)
    match t.ReadOnlyBeaconBlockFromABCIRequest req h.cfg.BeaconBlockPosition forkVersion with
    | .error err => (w, some err)
    | .ok blk =>
      let w := w.record (Event.GetBlobSideCars req h.cfg.BlobSidecarsBlockPosition)
      match t.GetBlobSideCars req h.cfg.BlobSidecarsBlockPosition with
      | .error err => (w, some err)
      | .ok blobSideCars =>
        -- Processing the incoming beacon block and blobs.
        let w := w.CacheContext
        let w :=
          match w.invoke (fun seen => Event.ProcessBeaconBlock Ctx.cache seen blk blobSideCars)
              Ctx.cache (fun seen => h.chainService.ProcessBeaconBlock seen blk blobSideCars) with
          | (w, some err) =>
            w.log { level := Level.warn, msg := "failed to receive beacon block", err := err }
          | (w, none) => w.write
        -- Process the finalization of the beacon block.
        match w.invoke (fun seen => Event.PostBlockProcess Ctx.durable seen blk) Ctx.durable
            (fun seen => h.chainService.PostBlockProcess seen blk) with
        | (w, some err) => (w, some err)
        | (w, none) =>
          -- Call the nested child handler.
          callNextPreblockHandler h w req

/-- Modelled from the spec: `abcitypes.GetBlobSideCars` (package
`mod/runtime/abci/types`, not among the sources): locates the field at the given
position; an absent field is not an error and yields the empty bundle, a present
field is decoded, and a malformed one fails with the decode error. The empty
bundle and the decoder of `datypes.BlobSidecars` are parameters. -/
def GetBlobSideCars {E S : Type} (empty : S) (unmarshal : Bytes → Except E S)
    (req : RequestFinalizeBlock) (pos : Nat) : Except E S :=
  match req.Txs.get? pos with
  | none => .ok empty
  | some bz => unmarshal bz

/-! ## The durable effect of a trace -/

/-- The writes an invocation puts into the durable store: those a collaborator
issues when it is invoked on the durable context, and those the commit function
flushes. An invocation on the speculative context puts nothing there, nor do the
extractors or the opening of the speculative context. -/
def Event.durableWrites {E B S : Type} (h : Handler E B S) : Event E B S → List WriteOp
  | .ProcessSlot Ctx.durable seen => (h.chainService.ProcessSlot seen).writes
  | .PostBlockProcess Ctx.durable seen blk => (h.chainService.PostBlockProcess seen blk).writes
  | .nextPreblock Ctx.durable seen req =>
    match h.nextPreblock with
    | some next => (next seen req).writes
    | none => []
  | .write flushed => flushed
  | _ => []

/-- The durable store obtained from `s` by the invocations of a trace, in order. -/
def replay {E B S : Type} (h : Handler E B S) (tr : List (Event E B S)) (s : Store) : Store :=
  tr.foldl (fun acc ev => applyWrites (ev.durableWrites h) acc) s

/-! ## The order of invocations -/

/-- The invocations of a call which commits, in order. -/
def committedOrder : List Kind :=
  [Kind.ProcessSlot, Kind.ReadOnlyBeaconBlockFromABCIRequest, Kind.GetBlobSideCars,
    Kind.CacheContext, Kind.ProcessBeaconBlock, Kind.write, Kind.PostBlockProcess,
    Kind.nextPreblock]

/-- The invocations of a call which does not commit, in order. -/
def uncommittedOrder : List Kind :=
  [Kind.ProcessSlot, Kind.ReadOnlyBeaconBlockFromABCIRequest, Kind.GetBlobSideCars,
    Kind.CacheContext, Kind.ProcessBeaconBlock, Kind.PostBlockProcess, Kind.nextPreblock]

/-! ## Concrete collaborators

Errors are numbered, a block is a number, a sidecar bundle is a list of numbers. -/

/-- A chain service whose three stateful methods each write one key and return
the given results: `ProcessSlot` sets key 0, `ProcessBeaconBlock` stores the block
under key 1, `PostBlockProcess` sets key 2. -/
def demoService (slotErr blockErr postErr : Option Nat) : ChainService Nat Nat (List Nat) :=
  { ProcessSlot := fun _ => { writes := [WriteOp.set [0] [1]], err := slotErr }
    ActiveForkVersionForSlot := fun _ => 0
    ProcessBeaconBlock := fun _ blk _ => { writes := [WriteOp.set [1] [blk]], err := blockErr }
    PostBlockProcess := fun _ _ => { writes := [WriteOp.set [2] [1]], err := postErr } }

/-- Extractors: a block field is well-formed when it is a single byte (error 7
otherwise); the sidecar field must be present (error 8 otherwise). -/
def demoTypes : Abcitypes Nat Nat (List Nat) :=
  { ReadOnlyBeaconBlockFromABCIRequest := fun req pos _ =>
      match req.Txs.get? pos with
      | some [b] => .ok b
      | _ => .error 7
    GetBlobSideCars := fun req pos =>
      match req.Txs.get? pos with
      | some bz => .ok bz
      | none => .error 8 }

/-- A next handler which sets key 3 and returns the given result. -/
def demoNext (res : Option Nat) : Store → RequestFinalizeBlock → Outcome Nat :=
  fun _ _ => { writes := [WriteOp.set [3] [1]], err := res }

/-- A handler over `demoService` with the block at position 0 and the sidecars at
position 1. -/
def demoHandler (slotErr blockErr postErr : Option Nat)
    (next : Option (Store → RequestFinalizeBlock → Outcome Nat)) : Handler Nat Nat (List Nat) :=
  { cfg := { BeaconBlockPosition := 0, BlobSidecarsBlockPosition := 1 }
    chainService := demoService slotErr blockErr postErr
    nextPreblock := next }

/-- A request at height 5 with a well-formed block (42) and a sidecar field. -/
def goodReq : RequestFinalizeBlock := { Txs := [[42], [9, 9]], Height := 5 }

/-- A request at height 5 whose block field is malformed. -/
def badReq : RequestFinalizeBlock := { Txs := [[1, 2, 3], [9, 9]], Height := 5 }

/-- A request at height 5 with a well-formed block and no sidecar field. -/
def bareReq : RequestFinalizeBlock := { Txs := [[42]], Height := 5 }

/-- Every collaborator succeeds, and a succeeding next handler is configured. -/
def acceptingHandler : Handler Nat Nat (List Nat) :=
  demoHandler none none none (some (demoNext none))

/-- Block application is rejected with error 3; everything else succeeds, and a
succeeding next handler is configured. -/
def rejectingHandler : Handler Nat Nat (List Nat) :=
  demoHandler none (some 3) none (some (demoNext none))

/-- Block application is rejected with error 3 and post-processing fails with
error 4; a next handler is configured. -/
def rejectingFailingHandler : Handler Nat Nat (List Nat) :=
  demoHandler none (some 3) (some 4) (some (demoNext none))

/-- Every collaborator succeeds and no next handler is configured. -/
def lastHandler : Handler Nat Nat (List Nat) :=
  demoHandler none none none none

/-- Post-processing fails with error 4 after an accepted block; a next handler is
configured. -/
def failingPostHandler : Handler Nat Nat (List Nat) :=
  demoHandler none none (some 4) (some (demoNext none))

/-- Every chain service method succeeds; the next handler fails with error 6. -/
def failingNextHandler : Handler Nat Nat (List Nat) :=
  demoHandler none none none (some (demoNext (some 6)))

/-- The extractors of `demoTypes`, with the sidecar extractor replaced by
`GetBlobSideCars` over an identity decoder and the empty list as empty bundle. -/
def lenientTypes : Abcitypes Nat Nat (List Nat) :=
  { ReadOnlyBeaconBlockFromABCIRequest := demoTypes.ReadOnlyBeaconBlockFromABCIRequest
    GetBlobSideCars := GetBlobSideCars [] (fun bz => .ok bz) }

/-- A request at height 5 with a well-formed block and a sidecar field which
`strictTypes` rejects. -/
def badSidecarReq : RequestFinalizeBlock := { Txs := [[42], []], Height := 5 }

/-- The extractors of `demoTypes`, with a sidecar extractor which fails with error
8 on an absent field and with error 9 on an empty one. -/
def strictTypes : Abcitypes Nat Nat (List Nat) :=
  { ReadOnlyBeaconBlockFromABCIRequest := demoTypes.ReadOnlyBeaconBlockFromABCIRequest
    GetBlobSideCars := fun req pos =>
      match req.Txs.get? pos with
      | none => .error 8
      | some [] => .error 9
      | some bz => .ok bz }

/-- A handler whose `PostBlockProcess` reads the durable state: it succeeds when
key 1, which `ProcessBeaconBlock` writes, is present and fails with error 5 when
it is not. Slot advance succeeds, `ProcessBeaconBlock` returns the given result,
and no next handler is configured. -/
def stateReadingHandler (blockErr : Option Nat) : Handler Nat Nat (List Nat) :=
  { cfg := { BeaconBlockPosition := 0, BlobSidecarsBlockPosition := 1 }
    chainService :=
      { ProcessSlot := fun _ => { writes := [WriteOp.set [0] [1]], err := none }
        ActiveForkVersionForSlot := fun _ => 0
        ProcessBeaconBlock := fun _ blk _ => { writes := [WriteOp.set [1] [blk]], err := blockErr }
        PostBlockProcess := fun seen _ =>
          { writes := [], err := if (Store.get seen [1]).isSome then none else some 5 } }
    nextPreblock := none }

/-! ## Reads after a merge -/

theorem find_filter_other (s : Store) (k k2 : Bytes) (hk : k ≠ k2) :
    (s.filter (fun p => p.1 != k)).find? (fun p => p.1 == k2)
      = s.find? (fun p => p.1 == k2) := by
  induction s with
  | nil => rfl
  | cons p ps ih =>
    by_cases hp : p.1 = k
    · have hq : ¬ p.1 = k2 := fun h => hk (hp.symm.trans h)
      have e1 : (p.1 != k) = false := by simp [hp]
      have e2 : (p.1 == k2) = false := by simpa using hq
      rw [List.filter_cons, e1, List.find?_cons, e2]
      simpa using ih
    · have e1 : (p.1 != k) = true := by simpa using hp
      rw [List.filter_cons, e1]
      simp only [if_true, List.find?_cons]
      rw [ih]

theorem find_filter_same (s : Store) (k : Bytes) :
    (s.filter (fun p => p.1 != k)).find? (fun p => p.1 == k) = none := by
  induction s with
  | nil => rfl
  | cons p ps ih =>
    by_cases hp : p.1 = k
    · have e1 : (p.1 != k) = false := by simp [hp]
      rw [List.filter_cons, e1]
      simp
    · have e1 : (p.1 != k) = true := by simpa using hp
      have e2 : (p.1 == k) = false := by simpa using hp
      rw [List.filter_cons, e1]
      simp only [if_true, List.find?_cons, e2]
      exact ih

theorem Store.get_set (s : Store) (k v k2 : Bytes) :
    (s.set k v).get k2 = if k = k2 then some v else s.get k2 := by
  unfold Store.set Store.get
  by_cases hk : k = k2
  · simp [hk]
  · have e : ((k, v).1 == k2) = false := by simpa using hk
    rw [List.find?_cons, e, find_filter_other s k k2 hk]
    simp [hk]

theorem Store.get_delete (s : Store) (k k2 : Bytes) :
    (s.delete k).get k2 = if k = k2 then none else s.get k2 := by
  unfold Store.delete Store.get
  by_cases hk : k = k2
  · subst hk
    rw [find_filter_same]
    simp
  · rw [find_filter_other s k k2 hk]
    simp [hk]

@[simp] theorem applyWrites_nil (s : Store) : applyWrites [] s = s := rfl

theorem applyWrites_append (ws vs : List WriteOp) (s : Store) :
    applyWrites (ws ++ vs) s = applyWrites vs (applyWrites ws s) := by
  simp [applyWrites, List.foldl_append]

/-- Reading the merged store is reading through the overlay: a key written
speculatively has its latest written value (or is gone, if last deleted), every
other key has the value of the parent. -/
theorem get_applyWrites (ws : List WriteOp) (s : Store) (k : Bytes) :
    (applyWrites ws s).get k = overlayGet ws s k := by
  induction ws using List.reverseRecOn with
  | nil => simp [applyWrites, overlayGet]
  | append_singleton ws op ih =>
    rw [applyWrites_append]
    unfold overlayGet
    rw [List.reverse_append]
    cases op with
    | set k1 v =>
      simp only [applyWrites, List.foldl_cons, List.foldl_nil, WriteOp.apply, List.reverse_cons,
        List.reverse_nil, List.nil_append, List.singleton_append, List.find?_cons, WriteOp.key]
      rw [Store.get_set]
      by_cases hk : k1 = k
      · simp [hk]
      · have e : (k1 == k) = false := by simpa using hk
        simp only [hk, if_false, e]
        exact ih
    | delete k1 =>
      simp only [applyWrites, List.foldl_cons, List.foldl_nil, WriteOp.apply, List.reverse_cons,
        List.reverse_nil, List.nil_append, List.singleton_append, List.find?_cons, WriteOp.key]
      rw [Store.get_delete]
      by_cases hk : k1 = k
      · simp [hk]
      · have e : (k1 == k) = false := by simpa using hk
        simp only [hk, if_false, e]
        exact ih

/-! ## The shape of a call once extraction has succeeded -/

/-- Once slot advance and both extractions have succeeded, with `s1` the durable
state after slot advance and `st` the durable state after the block-application
step (`s1` with the writes of `ProcessBeaconBlock` if it succeeded, `s1` itself if
it failed): the only `PostBlockProcess` invocation is the one on the durable context
with `st` and the decoded block; the result is the error of `PostBlockProcess` if
any, otherwise the result of the next handler if any, otherwise success; and the
next handler is invoked exactly when `PostBlockProcess` succeeded and a next
handler is configured, then once and last, on the durable context showing the state
which `PostBlockProcess` left, with the request as received. -/
theorem PreBlocker_after_extraction {E B S : Type} (t : Abcitypes E B S) (h : Handler E B S)
    (s s1 st : Store) (req : RequestFinalizeBlock) (blk : B) (sc : S)
    (hslot : (h.chainService.ProcessSlot s).err = none)
    (hblk : t.ReadOnlyBeaconBlockFromABCIRequest req h.cfg.BeaconBlockPosition
      (h.chainService.ActiveForkVersionForSlot (Slot req.Height)) = .ok blk)
    (hsc : t.GetBlobSideCars req h.cfg.BlobSidecarsBlockPosition = .ok sc)
    (hs1 : s1 = applyWrites (h.chainService.ProcessSlot s).writes s)
    (hst : st = (match (h.chainService.ProcessBeaconBlock s1 blk sc).err with
      | none => applyWrites (h.chainService.ProcessBeaconBlock s1 blk sc).writes s1
      | some _ => s1)) :
    (∀ (c : Ctx) (x : Store) (b : B),
        Event.PostBlockProcess c x b ∈ (PreBlocker t h (World.start s) req).1.trace
          ↔ (c = Ctx.durable ∧ x = st ∧ b = blk))
    ∧ (PreBlocker t h (World.start s) req).2
        = (match (h.chainService.PostBlockProcess st blk).err, h.nextPreblock with
            | some e, _ => some e
            | none, none => none
            | none, some next =>
              (next (applyWrites (h.chainService.PostBlockProcess st blk).writes st) req).err)
    ∧ calls Kind.nextPreblock (PreBlocker t h (World.start s) req).1.trace
        = (if (h.chainService.PostBlockProcess st blk).err.isNone && h.nextPreblock.isSome
            then 1 else 0)
    ∧ (∀ (c : Ctx) (x : Store) (r : RequestFinalizeBlock),
        Event.nextPreblock c x r ∈ (PreBlocker t h (World.start s) req).1.trace
          ↔ ((h.chainService.PostBlockProcess st blk).err = none ∧ h.nextPreblock.isSome = true
              ∧ c = Ctx.durable
              ∧ x = applyWrites (h.chainService.PostBlockProcess st blk).writes st ∧ r = req))
    ∧ ((h.chainService.PostBlockProcess st blk).err = none → h.nextPreblock.isSome = true →
        (PreBlocker t h (World.start s) req).1.trace.getLast?
          = some (Event.nextPreblock Ctx.durable
              (applyWrites (h.chainService.PostBlockProcess st blk).writes st) req))
    ∧ ((h.chainService.PostBlockProcess st blk).err ≠ none →
        (PreBlocker t h (World.start s) req).1.trace.getLast?
          = some (Event.PostBlockProcess Ctx.durable st blk)) := by
  subst hs1
  cases hpbb : (h.chainService.ProcessBeaconBlock
      (applyWrites (h.chainService.ProcessSlot s).writes s) blk sc).err <;>
    rw [hpbb] at hst <;> simp only at hst <;>
    cases hnext : h.nextPreblock <;>
    cases hpost : (h.chainService.PostBlockProcess st blk).err <;>
    subst hst <;>
    simp [PreBlocker, callNextPreblockHandler, World.invoke, World.view, World.put, World.record,
      World.log, World.start, World.CacheContext, World.write, hslot, hblk, hsc,
      hpbb, hpost, hnext, calls, Event.kind]

/-! ## Slot advance fails -/

/-- C1: if `ProcessSlot` returns an error `e`, `PreBlocker` returns exactly `e`, and
the only invocation it made is `ProcessSlot`: neither extractor,
`ProcessBeaconBlock`, the commit function, `PostBlockProcess` nor the next handler
is invoked. -/
theorem PreBlocker_slot_error {E B S : Type} (t : Abcitypes E B S) (h : Handler E B S)
    (s : Store) (req : RequestFinalizeBlock) (e : E)
    (hslot : (h.chainService.ProcessSlot s).err = some e) :
    (PreBlocker t h (World.start s) req).2 = some e
    ∧ (PreBlocker t h (World.start s) req).1.trace = [Event.ProcessSlot Ctx.durable s]
    ∧ calls Kind.ReadOnlyBeaconBlockFromABCIRequest (PreBlocker t h (World.start s) req).1.trace = 0
    ∧ calls Kind.GetBlobSideCars (PreBlocker t h (World.start s) req).1.trace = 0
    ∧ calls Kind.ProcessBeaconBlock (PreBlocker t h (World.start s) req).1.trace = 0
    ∧ calls Kind.write (PreBlocker t h (World.start s) req).1.trace = 0
    ∧ calls Kind.PostBlockProcess (PreBlocker t h (World.start s) req).1.trace = 0
    ∧ calls Kind.nextPreblock (PreBlocker t h (World.start s) req).1.trace = 0 := by
  simp [PreBlocker, World.invoke, World.view, World.put, World.record, World.log, World.start,
    hslot, calls, Event.kind]

/-- C1, at a concrete input: slot advance fails with error 1 on a well-formed
request, with a next handler configured. -/
theorem PreBlocker_slot_error_witness :
    (PreBlocker demoTypes (demoHandler (some 1) none none (some (demoNext none)))
        (World.start []) goodReq).2 = some 1
    ∧ (PreBlocker demoTypes (demoHandler (some 1) none none (some (demoNext none)))
        (World.start []) goodReq).1.trace = [Event.ProcessSlot Ctx.durable []]
    ∧ calls Kind.ReadOnlyBeaconBlockFromABCIRequest
        (PreBlocker demoTypes (demoHandler (some 1) none none (some (demoNext none)))
          (World.start []) goodReq).1.trace = 0
    ∧ calls Kind.GetBlobSideCars
        (PreBlocker demoTypes (demoHandler (some 1) none none (some (demoNext none)))
          (World.start []) goodReq).1.trace = 0
    ∧ calls Kind.ProcessBeaconBlock
        (PreBlocker demoTypes (demoHandler (some 1) none none (some (demoNext none)))
          (World.start []) goodReq).1.trace = 0
    ∧ calls Kind.write
        (PreBlocker demoTypes (demoHandler (some 1) none none (some (demoNext none)))
          (World.start []) goodReq).1.trace = 0
    ∧ calls Kind.PostBlockProcess
        (PreBlocker demoTypes (demoHandler (some 1) none none (some (demoNext none)))
          (World.start []) goodReq).1.trace = 0
    ∧ calls Kind.nextPreblock
        (PreBlocker demoTypes (demoHandler (some 1) none none (some (demoNext none)))
          (World.start []) goodReq).1.trace = 0 :=
  PreBlocker_slot_error demoTypes (demoHandler (some 1) none none (some (demoNext none)))
    [] goodReq 1 rfl

/-! ## The block field is malformed -/

/-- C2, as amended: when slot advance succeeds and the block field is malformed
(block decoding returns an error `e`), `PreBlocker` returns `e` and the durable
state after the call is the durable state as `ProcessSlot` left it: the writes of
slot advance, and nothing else, on top of the state before the call. -/
theorem PreBlocker_malformed_block_state {E B S : Type} (t : Abcitypes E B S)
    (h : Handler E B S) (s : Store) (req : RequestFinalizeBlock) (e : E)
    (hslot : (h.chainService.ProcessSlot s).err = none)
    (hblk : t.ReadOnlyBeaconBlockFromABCIRequest req h.cfg.BeaconBlockPosition
      (h.chainService.ActiveForkVersionForSlot (Slot req.Height)) = .error e) :
    (PreBlocker t h (World.start s) req).2 = some e
    ∧ (PreBlocker t h (World.start s) req).1.durable
        = applyWrites (h.chainService.ProcessSlot s).writes s := by
  simp [PreBlocker, World.invoke, World.view, World.put, World.record, World.start,
    hslot, hblk]

/-- C2 as amended, at a concrete input: the block field is malformed and slot
advance succeeds. -/
theorem PreBlocker_malformed_block_state_witness :
    (PreBlocker demoTypes (demoHandler none none none none) (World.start []) badReq).2 = some 7
    ∧ (PreBlocker demoTypes (demoHandler none none none none) (World.start []) badReq).1.durable
        = applyWrites ((demoHandler none none none none).chainService.ProcessSlot []).writes [] :=
  PreBlocker_malformed_block_state demoTypes (demoHandler none none none none) [] badReq 7
    rfl rfl

/-- C2 as stated fails: the block field of `badReq` is malformed (decode error 7),
yet (i) with a slot advance that succeeds the durable state after the call differs
from the empty durable state before it (key 0, written by `ProcessSlot`, stays),
and (ii) with a slot advance that fails with error 1 the error returned is 1, not
the decode error. -/
theorem PreBlocker_malformed_block_counterexample :
    demoTypes.ReadOnlyBeaconBlockFromABCIRequest badReq 0 0 = .error 7
    ∧ (PreBlocker demoTypes (demoHandler none none none none) (World.start []) badReq).2 = some 7
    ∧ (PreBlocker demoTypes (demoHandler none none none none) (World.start []) badReq).1.durable
        = [([0], [1])]
    ∧ (PreBlocker demoTypes (demoHandler none none none none) (World.start []) badReq).1.durable
        ≠ []
    ∧ (PreBlocker demoTypes (demoHandler (some 1) none none none) (World.start []) badReq).2
        = some 1
    ∧ (PreBlocker demoTypes (demoHandler (some 1) none none none) (World.start []) badReq).2
        ≠ some 7 :=
  ⟨rfl, by decide, by decide, by decide, by decide, by decide⟩

/-! ## Block application under the speculative context -/

/-- C3, as amended: when slot advance and extraction succeed and
`ProcessBeaconBlock` returns an error, the commit function is never called;
`ProcessBeaconBlock` ran on the speculative context, which showed the durable state
`s1` as it was just before block application began; `PostBlockProcess` is invoked
exactly once, on the durable context, and is handed exactly `s1`; the next handler
is invoked exactly when `PostBlockProcess` returns no error (and a next handler is
configured); and the durable state after the call is `s1` with only the writes of
`PostBlockProcess` and of the next handler applied. -/
theorem PreBlocker_block_rejected {E B S : Type} (t : Abcitypes E B S) (h : Handler E B S)
    (s s1 s2 : Store) (req : RequestFinalizeBlock) (blk : B) (sc : S) (e : E)
    (hslot : (h.chainService.ProcessSlot s).err = none)
    (hblk : t.ReadOnlyBeaconBlockFromABCIRequest req h.cfg.BeaconBlockPosition
      (h.chainService.ActiveForkVersionForSlot (Slot req.Height)) = .ok blk)
    (hsc : t.GetBlobSideCars req h.cfg.BlobSidecarsBlockPosition = .ok sc)
    (hs1 : s1 = applyWrites (h.chainService.ProcessSlot s).writes s)
    (hpbb : (h.chainService.ProcessBeaconBlock s1 blk sc).err = some e)
    (hs2 : s2 = applyWrites (h.chainService.PostBlockProcess s1 blk).writes s1) :
    calls Kind.write (PreBlocker t h (World.start s) req).1.trace = 0
    ∧ Event.ProcessBeaconBlock Ctx.cache s1 blk sc ∈ (PreBlocker t h (World.start s) req).1.trace
    ∧ Event.PostBlockProcess Ctx.durable s1 blk ∈ (PreBlocker t h (World.start s) req).1.trace
    ∧ calls Kind.PostBlockProcess (PreBlocker t h (World.start s) req).1.trace = 1
    ∧ calls Kind.nextPreblock (PreBlocker t h (World.start s) req).1.trace
        = (if (h.chainService.PostBlockProcess s1 blk).err.isNone && h.nextPreblock.isSome
            then 1 else 0)
    ∧ (PreBlocker t h (World.start s) req).1.durable
        = (match (h.chainService.PostBlockProcess s1 blk).err, h.nextPreblock with
            | none, some next => applyWrites (next s2 req).writes s2
            | _, _ => s2) := by
  subst hs1 hs2
  cases hpost : (h.chainService.PostBlockProcess
      (applyWrites (h.chainService.ProcessSlot s).writes s) blk).err <;>
    cases hnext : h.nextPreblock <;>
    simp [PreBlocker, callNextPreblockHandler, World.invoke, World.view, World.put, World.record,
      World.log, World.start, World.CacheContext, World.write, hslot, hblk, hsc,
      hpbb, hpost, hnext, calls, Event.kind]

/-- C3 as amended, at a concrete input: block application is rejected, and
post-processing and the next handler succeed. -/
theorem PreBlocker_block_rejected_witness :
    calls Kind.write (PreBlocker demoTypes rejectingHandler (World.start []) goodReq).1.trace = 0
    ∧ Event.ProcessBeaconBlock Ctx.cache [([0], [1])] 42 [9, 9]
        ∈ (PreBlocker demoTypes rejectingHandler (World.start []) goodReq).1.trace
    ∧ Event.PostBlockProcess Ctx.durable [([0], [1])] 42
        ∈ (PreBlocker demoTypes rejectingHandler (World.start []) goodReq).1.trace
    ∧ calls Kind.PostBlockProcess
        (PreBlocker demoTypes rejectingHandler (World.start []) goodReq).1.trace = 1
    ∧ calls Kind.nextPreblock
        (PreBlocker demoTypes rejectingHandler (World.start []) goodReq).1.trace = 1
    ∧ (PreBlocker demoTypes rejectingHandler (World.start []) goodReq).1.durable
        = [([3], [1]), ([2], [1]), ([0], [1])] :=
  PreBlocker_block_rejected demoTypes rejectingHandler [] [([0], [1])]
    [([2], [1]), ([0], [1])] goodReq 42 [9, 9] 3 rfl rfl rfl rfl rfl rfl

/-- C3 as stated fails: slot advance and extraction succeed, `ProcessBeaconBlock`
returns error 3 and `PostBlockProcess` returns error 4; a next handler is
configured, yet it is not invoked: the call ends with error 4 after
`PostBlockProcess`. -/
theorem PreBlocker_block_rejected_counterexample :
    (rejectingFailingHandler.chainService.ProcessSlot []).err = none
    ∧ demoTypes.ReadOnlyBeaconBlockFromABCIRequest goodReq 0 0 = .ok 42
    ∧ demoTypes.GetBlobSideCars goodReq 1 = .ok [9, 9]
    ∧ (rejectingFailingHandler.chainService.ProcessBeaconBlock [([0], [1])] 42 [9, 9]).err
        = some 3
    ∧ rejectingFailingHandler.nextPreblock.isSome = true
    ∧ calls Kind.PostBlockProcess
        (PreBlocker demoTypes rejectingFailingHandler (World.start []) goodReq).1.trace = 1
    ∧ calls Kind.nextPreblock
        (PreBlocker demoTypes rejectingFailingHandler (World.start []) goodReq).1.trace = 0
    ∧ (PreBlocker demoTypes rejectingFailingHandler (World.start []) goodReq).2 = some 4 :=
  ⟨rfl, rfl, rfl, rfl, rfl, by decide, by decide, by decide⟩

/-- C4: when slot advance and extraction succeed and `ProcessBeaconBlock` returns
no error, the speculative context is merged: `ProcessBeaconBlock` ran on the
speculative context over the durable state `s1` as it was just before block
application began; the commit function is called once and flushes exactly the
writes of `ProcessBeaconBlock`; `PostBlockProcess` is invoked on the durable
context and is handed `s1` with those writes applied; and in that state every key
reads as through the speculative context: the latest speculative write to it if
there is one, its value in `s1` otherwise. -/
theorem PreBlocker_block_accepted {E B S : Type} (t : Abcitypes E B S) (h : Handler E B S)
    (s s1 : Store) (req : RequestFinalizeBlock) (blk : B) (sc : S)
    (hslot : (h.chainService.ProcessSlot s).err = none)
    (hblk : t.ReadOnlyBeaconBlockFromABCIRequest req h.cfg.BeaconBlockPosition
      (h.chainService.ActiveForkVersionForSlot (Slot req.Height)) = .ok blk)
    (hsc : t.GetBlobSideCars req h.cfg.BlobSidecarsBlockPosition = .ok sc)
    (hs1 : s1 = applyWrites (h.chainService.ProcessSlot s).writes s)
    (hpbb : (h.chainService.ProcessBeaconBlock s1 blk sc).err = none) :
    Event.ProcessBeaconBlock Ctx.cache s1 blk sc ∈ (PreBlocker t h (World.start s) req).1.trace
    ∧ Event.write (h.chainService.ProcessBeaconBlock s1 blk sc).writes
        ∈ (PreBlocker t h (World.start s) req).1.trace
    ∧ calls Kind.write (PreBlocker t h (World.start s) req).1.trace = 1
    ∧ Event.PostBlockProcess Ctx.durable
        (applyWrites (h.chainService.ProcessBeaconBlock s1 blk sc).writes s1) blk
        ∈ (PreBlocker t h (World.start s) req).1.trace
    ∧ calls Kind.PostBlockProcess (PreBlocker t h (World.start s) req).1.trace = 1
    ∧ ∀ k : Bytes,
        (applyWrites (h.chainService.ProcessBeaconBlock s1 blk sc).writes s1).get k
          = overlayGet (h.chainService.ProcessBeaconBlock s1 blk sc).writes s1 k := by
  subst hs1
  refine ⟨?_, ?_, ?_, ?_, ?_, fun k => get_applyWrites _ _ k⟩ <;>
    cases hpost : (h.chainService.PostBlockProcess
      (applyWrites (h.chainService.ProcessBeaconBlock
        (applyWrites (h.chainService.ProcessSlot s).writes s) blk sc).writes
        (applyWrites (h.chainService.ProcessSlot s).writes s)) blk).err <;>
    cases hnext : h.nextPreblock <;>
    simp [PreBlocker, callNextPreblockHandler, World.invoke, World.view, World.put, World.record,
      World.log, World.start, World.CacheContext, World.write, hslot, hblk, hsc,
      hpbb, hpost, hnext, calls, Event.kind]

/-- C4, at a concrete input: every collaborator succeeds. -/
theorem PreBlocker_block_accepted_witness :
    Event.ProcessBeaconBlock Ctx.cache [([0], [1])] 42 [9, 9]
        ∈ (PreBlocker demoTypes acceptingHandler (World.start []) goodReq).1.trace
    ∧ Event.write [WriteOp.set [1] [42]]
        ∈ (PreBlocker demoTypes acceptingHandler (World.start []) goodReq).1.trace
    ∧ calls Kind.write (PreBlocker demoTypes acceptingHandler (World.start []) goodReq).1.trace = 1
    ∧ Event.PostBlockProcess Ctx.durable [([1], [42]), ([0], [1])] 42
        ∈ (PreBlocker demoTypes acceptingHandler (World.start []) goodReq).1.trace
    ∧ calls Kind.PostBlockProcess
        (PreBlocker demoTypes acceptingHandler (World.start []) goodReq).1.trace = 1
    ∧ ∀ k : Bytes, Store.get [([1], [42]), ([0], [1])] k
        = overlayGet [WriteOp.set [1] [42]] [([0], [1])] k :=
  PreBlocker_block_accepted demoTypes acceptingHandler [] [([0], [1])] goodReq 42 [9, 9]
    rfl rfl rfl rfl rfl

/-! ## The result of a call -/

/-- C5, as amended: when slot advance and extraction succeed, the value `PreBlocker`
returns is the error of `PostBlockProcess` if it returns one, otherwise the result
of the next handler if one is configured, otherwise success: the error of
`ProcessBeaconBlock` is never returned as such. In particular, if
`ProcessBeaconBlock` fails, `PostBlockProcess` succeeds and the chain is empty or
its head succeeds, `PreBlocker` returns no error. The outcome of
`ProcessBeaconBlock` bears on the returned value only through the durable state
which `PostBlockProcess` and the next handler are run on: replacing
`ProcessBeaconBlock` by any other block processor leaves the returned value
unchanged when the results of `PostBlockProcess` and of the next handler do not
vary with the state. -/
theorem PreBlocker_block_failure_not_fatal {E B S : Type} (t : Abcitypes E B S)
    (h : Handler E B S) (s s1 : Store) (req : RequestFinalizeBlock) (blk : B) (sc : S)
    (hslot : (h.chainService.ProcessSlot s).err = none)
    (hblk : t.ReadOnlyBeaconBlockFromABCIRequest req h.cfg.BeaconBlockPosition
      (h.chainService.ActiveForkVersionForSlot (Slot req.Height)) = .ok blk)
    (hsc : t.GetBlobSideCars req h.cfg.BlobSidecarsBlockPosition = .ok sc)
    (hs1 : s1 = applyWrites (h.chainService.ProcessSlot s).writes s) :
    (∃ st : Store,
        Event.PostBlockProcess Ctx.durable st blk ∈ (PreBlocker t h (World.start s) req).1.trace
        ∧ (PreBlocker t h (World.start s) req).2
            = (match (h.chainService.PostBlockProcess st blk).err, h.nextPreblock with
                | some e, _ => some e
                | none, none => none
                | none, some next =>
                  (next (applyWrites (h.chainService.PostBlockProcess st blk).writes st) req).err))
    ∧ (∀ e : E, (h.chainService.ProcessBeaconBlock s1 blk sc).err = some e →
        (h.chainService.PostBlockProcess s1 blk).err = none →
        (∀ next, h.nextPreblock = some next →
          (next (applyWrites (h.chainService.PostBlockProcess s1 blk).writes s1) req).err = none) →
        (PreBlocker t h (World.start s) req).2 = none)
    ∧ (∀ other : Store → B → S → Outcome E,
        (∀ x y : Store, (h.chainService.PostBlockProcess x blk).err
          = (h.chainService.PostBlockProcess y blk).err) →
        (∀ next, h.nextPreblock = some next → ∀ x y : Store, (next x req).err = (next y req).err) →
        (PreBlocker t
            { h with chainService := { h.chainService with ProcessBeaconBlock := other } }
            (World.start s) req).2
          = (PreBlocker t h (World.start s) req).2) := by
  refine ⟨?_, ?_, ?_⟩
  · obtain ⟨h1, h2, -⟩ := PreBlocker_after_extraction t h s s1 _ req blk sc hslot hblk hsc hs1 rfl
    exact ⟨_, (h1 _ _ _).2 ⟨rfl, rfl, rfl⟩, h2⟩
  · intro e hpbb hpost hchain
    obtain ⟨-, h2, -⟩ := PreBlocker_after_extraction t h s s1 s1 req blk sc hslot hblk hsc hs1
      (by rw [hpbb])
    rw [h2, hpost]
    cases hnext : h.nextPreblock with
    | none => rfl
    | some next => exact hchain next hnext
  · intro other hpost hchain
    obtain ⟨-, h2, -⟩ := PreBlocker_after_extraction t h s s1 _ req blk sc hslot hblk hsc hs1 rfl
    obtain ⟨-, h3, -⟩ := PreBlocker_after_extraction t
      { h with chainService := { h.chainService with ProcessBeaconBlock := other } }
      s s1 _ req blk sc hslot hblk hsc hs1 rfl
    rw [h2, h3]
    simp only
    generalize (match (other s1 blk sc).err with
      | none => applyWrites (other s1 blk sc).writes s1
      | some _ => s1) = x
    generalize (match (h.chainService.ProcessBeaconBlock s1 blk sc).err with
      | none => applyWrites (h.chainService.ProcessBeaconBlock s1 blk sc).writes s1
      | some _ => s1) = y
    rw [hpost x y]
    cases hp : (h.chainService.PostBlockProcess y blk).err with
    | some e => rfl
    | none =>
      cases hnext : h.nextPreblock with
      | none => rfl
      | some next => exact hchain next hnext _ _

/-- C5 as amended, at a concrete input: block application is rejected with error
3, and post-processing and the next handler succeed. -/
theorem PreBlocker_block_failure_not_fatal_witness :
    (rejectingHandler.chainService.ProcessBeaconBlock [([0], [1])] 42 [9, 9]).err = some 3
    ∧ (PreBlocker demoTypes rejectingHandler (World.start []) goodReq).2 = none :=
  ⟨rfl, (PreBlocker_block_failure_not_fatal demoTypes rejectingHandler [] [([0], [1])]
    goodReq 42 [9, 9] rfl rfl rfl rfl).2.1 3 rfl rfl (fun _ hn => by cases hn; rfl)⟩

/-- C5 as stated fails: two handlers which differ only in the result of
`ProcessBeaconBlock` (success, or error 3), on the same request, with slot advance
and extraction succeeding in both. `PostBlockProcess` succeeds when it finds the
key written by the block and fails with error 5 when it does not, so `PreBlocker`
returns success when the block is accepted and error 5 when it is rejected: the
returned value does depend on whether `ProcessBeaconBlock` succeeded. -/
theorem PreBlocker_block_failure_counterexample :
    ((stateReadingHandler none).chainService.ProcessSlot []).err = none
    ∧ ((stateReadingHandler (some 3)).chainService.ProcessSlot []).err = none
    ∧ demoTypes.ReadOnlyBeaconBlockFromABCIRequest goodReq 0 0 = .ok 42
    ∧ demoTypes.GetBlobSideCars goodReq 1 = .ok [9, 9]
    ∧ ((stateReadingHandler none).chainService.ProcessBeaconBlock [([0], [1])] 42 [9, 9]).err
        = none
    ∧ ((stateReadingHandler (some 3)).chainService.ProcessBeaconBlock [([0], [1])] 42
        [9, 9]).err = some 3
    ∧ (PreBlocker demoTypes (stateReadingHandler none) (World.start []) goodReq).2 = none
    ∧ (PreBlocker demoTypes (stateReadingHandler (some 3)) (World.start []) goodReq).2 = some 5
    ∧ (PreBlocker demoTypes (stateReadingHandler none) (World.start []) goodReq).2
        ≠ (PreBlocker demoTypes (stateReadingHandler (some 3)) (World.start []) goodReq).2 :=
  ⟨rfl, rfl, rfl, rfl, rfl, rfl, by decide, by decide, by decide⟩

/-- C6: when slot advance and extraction succeed and the invocation of
`PostBlockProcess` made by the call (on the durable state `st`, whatever
`ProcessBeaconBlock` returned) returns an error `e`, `PreBlocker` returns exactly
`e`, the next handler is not invoked, and `PostBlockProcess` is the last invocation
of the call. -/
theorem PreBlocker_post_error {E B S : Type} (t : Abcitypes E B S) (h : Handler E B S)
    (s st : Store) (req : RequestFinalizeBlock) (blk : B) (sc : S) (e : E)
    (hslot : (h.chainService.ProcessSlot s).err = none)
    (hblk : t.ReadOnlyBeaconBlockFromABCIRequest req h.cfg.BeaconBlockPosition
      (h.chainService.ActiveForkVersionForSlot (Slot req.Height)) = .ok blk)
    (hsc : t.GetBlobSideCars req h.cfg.BlobSidecarsBlockPosition = .ok sc)
    (hev : Event.PostBlockProcess Ctx.durable st blk
      ∈ (PreBlocker t h (World.start s) req).1.trace)
    (hpost : (h.chainService.PostBlockProcess st blk).err = some e) :
    (PreBlocker t h (World.start s) req).2 = some e
    ∧ calls Kind.nextPreblock (PreBlocker t h (World.start s) req).1.trace = 0
    ∧ (PreBlocker t h (World.start s) req).1.trace.getLast?
        = some (Event.PostBlockProcess Ctx.durable st blk) := by
  obtain ⟨h1, h2, h3, -, -, h6⟩ :=
    PreBlocker_after_extraction t h s _ _ req blk sc hslot hblk hsc rfl rfl
  obtain ⟨-, hx, -⟩ := (h1 _ _ _).1 hev
  rw [← hx] at h2 h3 h6
  refine ⟨?_, ?_, h6 (by rw [hpost]; exact Option.some_ne_none e)⟩
  · rw [h2, hpost]
  · rw [h3, hpost]; rfl

/-- C6, at a concrete input: post-processing fails with error 4 after an accepted
block, with a next handler configured. -/
theorem PreBlocker_post_error_witness :
    (PreBlocker demoTypes failingPostHandler (World.start []) goodReq).2 = some 4
    ∧ calls Kind.nextPreblock
        (PreBlocker demoTypes failingPostHandler (World.start []) goodReq).1.trace = 0
    ∧ (PreBlocker demoTypes failingPostHandler (World.start []) goodReq).1.trace.getLast?
        = some (Event.PostBlockProcess Ctx.durable [([1], [42]), ([0], [1])] 42) :=
  PreBlocker_post_error demoTypes failingPostHandler [] [([1], [42]), ([0], [1])] goodReq 42
    [9, 9] 4 rfl rfl rfl (by decide) rfl

/-! ## The handler chain -/

/-- C7: when slot advance and extraction succeed, a next handler is configured and
the invocation of `PostBlockProcess` made by the call (on the durable state `st`)
returns no error, the next handler is invoked exactly once, as the last invocation
of the call, on the durable context (showing the state which `PostBlockProcess`
left) and with the request `PreBlocker` received; every invocation of it in the
trace is that one; and `PreBlocker` returns exactly its result. -/
theorem PreBlocker_calls_next {E B S : Type} (t : Abcitypes E B S) (h : Handler E B S)
    (s st : Store) (req : RequestFinalizeBlock) (blk : B) (sc : S)
    (next : Store → RequestFinalizeBlock → Outcome E)
    (hslot : (h.chainService.ProcessSlot s).err = none)
    (hblk : t.ReadOnlyBeaconBlockFromABCIRequest req h.cfg.BeaconBlockPosition
      (h.chainService.ActiveForkVersionForSlot (Slot req.Height)) = .ok blk)
    (hsc : t.GetBlobSideCars req h.cfg.BlobSidecarsBlockPosition = .ok sc)
    (hnext : h.nextPreblock = some next)
    (hev : Event.PostBlockProcess Ctx.durable st blk
      ∈ (PreBlocker t h (World.start s) req).1.trace)
    (hpost : (h.chainService.PostBlockProcess st blk).err = none) :
    calls Kind.nextPreblock (PreBlocker t h (World.start s) req).1.trace = 1
    ∧ (PreBlocker t h (World.start s) req).1.trace.getLast?
        = some (Event.nextPreblock Ctx.durable
            (applyWrites (h.chainService.PostBlockProcess st blk).writes st) req)
    ∧ (∀ (c : Ctx) (x : Store) (r : RequestFinalizeBlock),
        Event.nextPreblock c x r ∈ (PreBlocker t h (World.start s) req).1.trace →
          c = Ctx.durable
          ∧ x = applyWrites (h.chainService.PostBlockProcess st blk).writes st ∧ r = req)
    ∧ (PreBlocker t h (World.start s) req).2
        = (next (applyWrites (h.chainService.PostBlockProcess st blk).writes st) req).err := by
  obtain ⟨h1, h2, h3, h4, h5, -⟩ :=
    PreBlocker_after_extraction t h s _ _ req blk sc hslot hblk hsc rfl rfl
  obtain ⟨-, hx, -⟩ := (h1 _ _ _).1 hev
  rw [← hx] at h2 h3 h4 h5
  refine ⟨?_, h5 hpost (by rw [hnext]; rfl), ?_, ?_⟩
  · rw [h3, hpost, hnext]; rfl
  · intro c x r hmem
    obtain ⟨-, -, hc, hx2, hr⟩ := (h4 c x r).1 hmem
    exact ⟨hc, hx2, hr⟩
  · rw [h2, hpost, hnext]

/-- C7, at a concrete input: everything up to the next handler succeeds and the
next handler fails with error 6. -/
theorem PreBlocker_calls_next_witness :
    calls Kind.nextPreblock
        (PreBlocker demoTypes failingNextHandler (World.start []) goodReq).1.trace = 1
    ∧ (PreBlocker demoTypes failingNextHandler (World.start []) goodReq).1.trace.getLast?
        = some (Event.nextPreblock Ctx.durable [([2], [1]), ([1], [42]), ([0], [1])] goodReq)
    ∧ (∀ (c : Ctx) (x : Store) (r : RequestFinalizeBlock),
        Event.nextPreblock c x r
          ∈ (PreBlocker demoTypes failingNextHandler (World.start []) goodReq).1.trace →
          c = Ctx.durable ∧ x = [([2], [1]), ([1], [42]), ([0], [1])] ∧ r = goodReq)
    ∧ (PreBlocker demoTypes failingNextHandler (World.start []) goodReq).2 = some 6 :=
  PreBlocker_calls_next demoTypes failingNextHandler [] [([1], [42]), ([0], [1])] goodReq 42
    [9, 9] (demoNext (some 6)) rfl rfl rfl rfl (by decide) rfl

/-- C8: on a handler with no next handler configured, `callNextPreblockHandler`
returns success and leaves the world as it was: nothing is invoked, nothing is
written, nothing is logged. Hence `PreBlocker` on such a handler returns success,
without invoking a next handler, whenever slot advance and extraction succeed and
the invocation of `PostBlockProcess` made by the call returns no error. -/
theorem callNextPreblockHandler_empty_chain {E B S : Type} (h : Handler E B S)
    (hnext : h.nextPreblock = none) :
    (∀ (w : World E B S) (req : RequestFinalizeBlock),
        callNextPreblockHandler h w req = (w, none))
    ∧ (∀ (t : Abcitypes E B S) (s : Store) (req : RequestFinalizeBlock) (blk : B) (sc : S),
        (h.chainService.ProcessSlot s).err = none →
        t.ReadOnlyBeaconBlockFromABCIRequest req h.cfg.BeaconBlockPosition
          (h.chainService.ActiveForkVersionForSlot (Slot req.Height)) = .ok blk →
        t.GetBlobSideCars req h.cfg.BlobSidecarsBlockPosition = .ok sc →
        (∀ st : Store,
          Event.PostBlockProcess Ctx.durable st blk
            ∈ (PreBlocker t h (World.start s) req).1.trace →
          (h.chainService.PostBlockProcess st blk).err = none) →
        (PreBlocker t h (World.start s) req).2 = none
        ∧ calls Kind.nextPreblock (PreBlocker t h (World.start s) req).1.trace = 0) := by
  refine ⟨?_, ?_⟩
  · intro w req
    simp [callNextPreblockHandler, hnext]
  · intro t s req blk sc hslot hblk hsc hpost
    obtain ⟨h1, h2, h3, -⟩ :=
      PreBlocker_after_extraction t h s _ _ req blk sc hslot hblk hsc rfl rfl
    have hp := hpost _ ((h1 _ _ _).2 ⟨rfl, rfl, rfl⟩)
    refine ⟨?_, ?_⟩
    · rw [h2, hp, hnext]
    · rw [h3, hp, hnext]; rfl

/-- C8, at a concrete input: an empty chain after a fully successful call; the
world handed to `callNextPreblockHandler` here is the starting one. -/
theorem callNextPreblockHandler_empty_chain_witness :
    callNextPreblockHandler lastHandler (World.start [([0], [1])]) goodReq
        = (World.start [([0], [1])], none)
    ∧ (PreBlocker demoTypes lastHandler (World.start []) goodReq).2 = none
    ∧ calls Kind.nextPreblock
        (PreBlocker demoTypes lastHandler (World.start []) goodReq).1.trace = 0 :=
  ⟨(callNextPreblockHandler_empty_chain lastHandler rfl).1 (World.start [([0], [1])]) goodReq,
    (callNextPreblockHandler_empty_chain lastHandler rfl).2 demoTypes [] goodReq 42 [9, 9]
      rfl rfl rfl (fun _ _ => rfl)⟩

/-! ## Extraction -/

/-- C9: with `GetBlobSideCars` as the sidecar extractor, for a request with no field
at the configured sidecar position, when slot advance and block decoding succeed:
sidecar extraction yields the empty bundle; `PreBlocker` does not stop at extraction
(the speculative context is opened and `PostBlockProcess` is reached); and
`ProcessBeaconBlock` is invoked exactly once, with the decoded block and exactly
the empty bundle. -/
theorem PreBlocker_absent_sidecars {E B S : Type}
    (read : RequestFinalizeBlock → Nat → Nat → Except E B) (empty : S)
    (unmarshal : Bytes → Except E S) (h : Handler E B S) (s s1 : Store)
    (req : RequestFinalizeBlock) (blk : B)
    (hslot : (h.chainService.ProcessSlot s).err = none)
    (hblk : read req h.cfg.BeaconBlockPosition
      (h.chainService.ActiveForkVersionForSlot (Slot req.Height)) = .ok blk)
    (habsent : req.Txs.get? h.cfg.BlobSidecarsBlockPosition = none)
    (hs1 : s1 = applyWrites (h.chainService.ProcessSlot s).writes s) :
    GetBlobSideCars empty unmarshal req h.cfg.BlobSidecarsBlockPosition = .ok empty
    ∧ Event.ProcessBeaconBlock Ctx.cache s1 blk empty
        ∈ (PreBlocker { ReadOnlyBeaconBlockFromABCIRequest := read,
                        GetBlobSideCars := GetBlobSideCars empty unmarshal }
            h (World.start s) req).1.trace
    ∧ calls Kind.ProcessBeaconBlock
        (PreBlocker { ReadOnlyBeaconBlockFromABCIRequest := read,
                      GetBlobSideCars := GetBlobSideCars empty unmarshal }
          h (World.start s) req).1.trace = 1
    ∧ (∀ (c : Ctx) (x : Store) (b : B) (sc : S),
        Event.ProcessBeaconBlock c x b sc
          ∈ (PreBlocker { ReadOnlyBeaconBlockFromABCIRequest := read,
                          GetBlobSideCars := GetBlobSideCars empty unmarshal }
              h (World.start s) req).1.trace → b = blk ∧ sc = empty)
    ∧ calls Kind.CacheContext
        (PreBlocker { ReadOnlyBeaconBlockFromABCIRequest := read,
                      GetBlobSideCars := GetBlobSideCars empty unmarshal }
          h (World.start s) req).1.trace = 1
    ∧ calls Kind.PostBlockProcess
        (PreBlocker { ReadOnlyBeaconBlockFromABCIRequest := read,
                      GetBlobSideCars := GetBlobSideCars empty unmarshal }
          h (World.start s) req).1.trace = 1 := by
  subst hs1
  have hsc : GetBlobSideCars empty unmarshal req h.cfg.BlobSidecarsBlockPosition = .ok empty := by
    unfold GetBlobSideCars
    rw [habsent]
  refine ⟨hsc, ?_⟩
  cases hpbb : (h.chainService.ProcessBeaconBlock
      (applyWrites (h.chainService.ProcessSlot s).writes s) blk empty).err <;>
    cases hnext : h.nextPreblock <;>
    cases hpost : (h.chainService.PostBlockProcess
      (applyWrites (h.chainService.ProcessSlot s).writes s) blk).err <;>
    cases hpost2 : (h.chainService.PostBlockProcess
      (applyWrites (h.chainService.ProcessBeaconBlock
        (applyWrites (h.chainService.ProcessSlot s).writes s) blk empty).writes
        (applyWrites (h.chainService.ProcessSlot s).writes s)) blk).err <;>
    simp [PreBlocker, callNextPreblockHandler, World.invoke, World.view, World.put, World.record,
      World.log, World.start, World.CacheContext, World.write, hslot, hblk, hsc,
      hpbb, hpost, hpost2, hnext, calls, Event.kind]

/-- C9, at a concrete input: a request with a well-formed block and no field at
the sidecar position 1. -/
theorem PreBlocker_absent_sidecars_witness :
    GetBlobSideCars (E := Nat) [] (fun bz => .ok bz) bareReq 1 = .ok []
    ∧ Event.ProcessBeaconBlock Ctx.cache [([0], [1])] 42 []
        ∈ (PreBlocker lenientTypes acceptingHandler (World.start []) bareReq).1.trace
    ∧ calls Kind.ProcessBeaconBlock
        (PreBlocker lenientTypes acceptingHandler (World.start []) bareReq).1.trace = 1
    ∧ (∀ (c : Ctx) (x : Store) (b : Nat) (sc : List Nat),
        Event.ProcessBeaconBlock c x b sc
          ∈ (PreBlocker lenientTypes acceptingHandler (World.start []) bareReq).1.trace →
          b = 42 ∧ sc = [])
    ∧ calls Kind.CacheContext
        (PreBlocker lenientTypes acceptingHandler (World.start []) bareReq).1.trace = 1
    ∧ calls Kind.PostBlockProcess
        (PreBlocker lenientTypes acceptingHandler (World.start []) bareReq).1.trace = 1 :=
  PreBlocker_absent_sidecars demoTypes.ReadOnlyBeaconBlockFromABCIRequest []
    (fun bz => .ok bz) acceptingHandler [] [([0], [1])] bareReq 42 rfl rfl rfl rfl

/-- C10: when slot advance succeeds and block decoding returns an error `e`,
`PreBlocker` returns exactly `e` and stops: its invocations are `ProcessSlot` and
the block extractor only; no sidecar extraction, no speculative context is opened,
and `ProcessBeaconBlock`, the commit function, `PostBlockProcess` and the next
handler are not invoked. -/
theorem PreBlocker_decode_error {E B S : Type} (t : Abcitypes E B S) (h : Handler E B S)
    (s : Store) (req : RequestFinalizeBlock) (e : E)
    (hslot : (h.chainService.ProcessSlot s).err = none)
    (hblk : t.ReadOnlyBeaconBlockFromABCIRequest req h.cfg.BeaconBlockPosition
      (h.chainService.ActiveForkVersionForSlot (Slot req.Height)) = .error e) :
    (PreBlocker t h (World.start s) req).2 = some e
    ∧ (PreBlocker t h (World.start s) req).1.trace
        = [Event.ProcessSlot Ctx.durable s,
           Event.ReadOnlyBeaconBlockFromABCIRequest req h.cfg.BeaconBlockPosition
             (h.chainService.ActiveForkVersionForSlot (Slot req.Height))]
    ∧ calls Kind.GetBlobSideCars (PreBlocker t h (World.start s) req).1.trace = 0
    ∧ calls Kind.CacheContext (PreBlocker t h (World.start s) req).1.trace = 0
    ∧ (PreBlocker t h (World.start s) req).1.cache = none
    ∧ calls Kind.ProcessBeaconBlock (PreBlocker t h (World.start s) req).1.trace = 0
    ∧ calls Kind.write (PreBlocker t h (World.start s) req).1.trace = 0
    ∧ calls Kind.PostBlockProcess (PreBlocker t h (World.start s) req).1.trace = 0
    ∧ calls Kind.nextPreblock (PreBlocker t h (World.start s) req).1.trace = 0 := by
  simp [PreBlocker, World.invoke, World.view, World.put, World.record, World.start,
    hslot, hblk, calls, Event.kind]

/-- C10, at a concrete input: the block field is malformed (decode error 7), slot
advance succeeds and a next handler is configured. -/
theorem PreBlocker_decode_error_witness :
    (PreBlocker demoTypes acceptingHandler (World.start []) badReq).2 = some 7
    ∧ (PreBlocker demoTypes acceptingHandler (World.start []) badReq).1.trace
        = [Event.ProcessSlot Ctx.durable [],
           Event.ReadOnlyBeaconBlockFromABCIRequest badReq 0 0]
    ∧ calls Kind.GetBlobSideCars
        (PreBlocker demoTypes acceptingHandler (World.start []) badReq).1.trace = 0
    ∧ calls Kind.CacheContext
        (PreBlocker demoTypes acceptingHandler (World.start []) badReq).1.trace = 0
    ∧ (PreBlocker demoTypes acceptingHandler (World.start []) badReq).1.cache = none
    ∧ calls Kind.ProcessBeaconBlock
        (PreBlocker demoTypes acceptingHandler (World.start []) badReq).1.trace = 0
    ∧ calls Kind.write
        (PreBlocker demoTypes acceptingHandler (World.start []) badReq).1.trace = 0
    ∧ calls Kind.PostBlockProcess
        (PreBlocker demoTypes acceptingHandler (World.start []) badReq).1.trace = 0
    ∧ calls Kind.nextPreblock
        (PreBlocker demoTypes acceptingHandler (World.start []) badReq).1.trace = 0 :=
  PreBlocker_decode_error demoTypes acceptingHandler [] badReq 7 rfl rfl

/-! ## Observability of a rejected block -/

/-- C11: when slot advance and extraction succeed, so that `ProcessBeaconBlock` is
invoked on the state `s1`: if it returns an error `e`, the log of the call holds
exactly one record, of warning level and carrying `e`; that record was emitted when
the call had made five invocations, the fifth being `ProcessBeaconBlock`, hence
right after it and before the sixth invocation, which is `PostBlockProcess`: before
the pipeline continues. If `ProcessBeaconBlock` returns no error, no record is
emitted at all. -/
theorem PreBlocker_logs_rejection {E B S : Type} (t : Abcitypes E B S) (h : Handler E B S)
    (s s1 : Store) (req : RequestFinalizeBlock) (blk : B) (sc : S)
    (hslot : (h.chainService.ProcessSlot s).err = none)
    (hblk : t.ReadOnlyBeaconBlockFromABCIRequest req h.cfg.BeaconBlockPosition
      (h.chainService.ActiveForkVersionForSlot (Slot req.Height)) = .ok blk)
    (hsc : t.GetBlobSideCars req h.cfg.BlobSidecarsBlockPosition = .ok sc)
    (hs1 : s1 = applyWrites (h.chainService.ProcessSlot s).writes s) :
    (∀ e : E, (h.chainService.ProcessBeaconBlock s1 blk sc).err = some e →
      (PreBlocker t h (World.start s) req).1.logs
          = [{ after := 5
               record := { level := Level.warn, msg := "failed to receive beacon block",
                           err := e } }]
      ∧ (PreBlocker t h (World.start s) req).1.trace.take 5
          = [Event.ProcessSlot Ctx.durable s,
             Event.ReadOnlyBeaconBlockFromABCIRequest req h.cfg.BeaconBlockPosition
               (h.chainService.ActiveForkVersionForSlot (Slot req.Height)),
             Event.GetBlobSideCars req h.cfg.BlobSidecarsBlockPosition,
             Event.CacheContext Ctx.durable,
             Event.ProcessBeaconBlock Ctx.cache s1 blk sc]
      ∧ (PreBlocker t h (World.start s) req).1.trace.drop 5
          = Event.PostBlockProcess Ctx.durable s1 blk
              :: (PreBlocker t h (World.start s) req).1.trace.drop 6
      ∧ calls Kind.ProcessBeaconBlock ((PreBlocker t h (World.start s) req).1.trace.drop 5) = 0)
    ∧ ((h.chainService.ProcessBeaconBlock s1 blk sc).err = none →
        (PreBlocker t h (World.start s) req).1.logs = []) := by
  subst hs1
  refine ⟨?_, ?_⟩
  · intro e hpbb
    cases hnext : h.nextPreblock <;>
      cases hpost : (h.chainService.PostBlockProcess
        (applyWrites (h.chainService.ProcessSlot s).writes s) blk).err <;>
      simp [PreBlocker, callNextPreblockHandler, World.invoke, World.view, World.put,
        World.record, World.log, World.start, World.CacheContext, World.write, hslot, hblk,
        hsc, hpbb, hpost, hnext, calls, Event.kind]
  · intro hpbb
    cases hnext : h.nextPreblock <;>
      cases hpost : (h.chainService.PostBlockProcess
        (applyWrites (h.chainService.ProcessBeaconBlock
          (applyWrites (h.chainService.ProcessSlot s).writes s) blk sc).writes
          (applyWrites (h.chainService.ProcessSlot s).writes s)) blk).err <;>
      simp [PreBlocker, callNextPreblockHandler, World.invoke, World.view, World.put,
        World.record, World.log, World.start, World.CacheContext, World.write, hslot, hblk,
        hsc, hpbb, hpost, hnext]

/-- C11, at concrete inputs: a block rejected with error 3 leaves exactly the
warning record carrying 3, emitted after five invocations, and the sixth invocation
is `PostBlockProcess`; an accepted block leaves no record. -/
theorem PreBlocker_logs_rejection_witness :
    ((PreBlocker demoTypes rejectingHandler (World.start []) goodReq).1.logs
        = [{ after := 5
             record := { level := Level.warn, msg := "failed to receive beacon block",
                         err := 3 } }]
      ∧ (PreBlocker demoTypes rejectingHandler (World.start []) goodReq).1.trace.drop 5
          = Event.PostBlockProcess Ctx.durable [([0], [1])] 42
              :: (PreBlocker demoTypes rejectingHandler (World.start []) goodReq).1.trace.drop 6)
    ∧ (PreBlocker demoTypes acceptingHandler (World.start []) goodReq).1.logs = [] :=
  ⟨⟨((PreBlocker_logs_rejection demoTypes rejectingHandler [] [([0], [1])] goodReq 42 [9, 9]
        rfl rfl rfl rfl).1 3 rfl).1,
      ((PreBlocker_logs_rejection demoTypes rejectingHandler [] [([0], [1])] goodReq 42 [9, 9]
        rfl rfl rfl rfl).1 3 rfl).2.2.1⟩,
    (PreBlocker_logs_rejection demoTypes acceptingHandler [] [([0], [1])] goodReq 42 [9, 9]
      rfl rfl rfl rfl).2 rfl⟩

/-! ## The commit function -/

/-- C12: in every call the commit function is called at most once; it is called
exactly when `ProcessBeaconBlock` was invoked and returned no error, and what it
flushes is then the writes of that invocation; and the durable state after the call
is the state before the call with, in order, the writes of the invocations made on
the durable context and the writes flushed by the commit function applied: the
writes of `ProcessBeaconBlock`, made through the speculative context, become
durable through the commit function or not at all. -/
theorem PreBlocker_commit_only_on_success {E B S : Type} (t : Abcitypes E B S)
    (h : Handler E B S) (s : Store) (req : RequestFinalizeBlock) :
    calls Kind.write (PreBlocker t h (World.start s) req).1.trace ≤ 1
    ∧ (calls Kind.write (PreBlocker t h (World.start s) req).1.trace = 1
        ↔ ∃ (x : Store) (blk : B) (sc : S),
            Event.ProcessBeaconBlock Ctx.cache x blk sc
              ∈ (PreBlocker t h (World.start s) req).1.trace
            ∧ (h.chainService.ProcessBeaconBlock x blk sc).err = none)
    ∧ (∀ ws : List WriteOp, Event.write ws ∈ (PreBlocker t h (World.start s) req).1.trace →
        ∃ (x : Store) (blk : B) (sc : S),
          Event.ProcessBeaconBlock Ctx.cache x blk sc
            ∈ (PreBlocker t h (World.start s) req).1.trace
          ∧ (h.chainService.ProcessBeaconBlock x blk sc).err = none
          ∧ ws = (h.chainService.ProcessBeaconBlock x blk sc).writes)
    ∧ (PreBlocker t h (World.start s) req).1.durable
        = replay h (PreBlocker t h (World.start s) req).1.trace s := by
  cases hslot : (h.chainService.ProcessSlot s).err with
  | some e =>
    simp [PreBlocker, World.invoke, World.view, World.put, World.record, World.log,
      World.start, hslot, calls, Event.kind, replay, Event.durableWrites]
  | none =>
    cases hblk : t.ReadOnlyBeaconBlockFromABCIRequest req h.cfg.BeaconBlockPosition
        (h.chainService.ActiveForkVersionForSlot (Slot req.Height)) with
    | error e =>
      simp [PreBlocker, World.invoke, World.view, World.put, World.record, World.log,
        World.start, hslot, hblk, calls, Event.kind, replay, Event.durableWrites]
    | ok blk =>
      cases hsc : t.GetBlobSideCars req h.cfg.BlobSidecarsBlockPosition with
      | error e =>
        simp [PreBlocker, World.invoke, World.view, World.put, World.record, World.log,
          World.start, hslot, hblk, hsc, calls, Event.kind, replay, Event.durableWrites]
      | ok sc =>
        cases hpbb : (h.chainService.ProcessBeaconBlock
            (applyWrites (h.chainService.ProcessSlot s).writes s) blk sc).err <;>
          cases hnext : h.nextPreblock <;>
          cases hpost : (h.chainService.PostBlockProcess
            (applyWrites (h.chainService.ProcessSlot s).writes s) blk).err <;>
          cases hpost2 : (h.chainService.PostBlockProcess
            (applyWrites (h.chainService.ProcessBeaconBlock
              (applyWrites (h.chainService.ProcessSlot s).writes s) blk sc).writes
              (applyWrites (h.chainService.ProcessSlot s).writes s)) blk).err <;>
          simp [PreBlocker, callNextPreblockHandler, World.invoke, World.view, World.put,
            World.record, World.log, World.start, World.CacheContext, World.write, hslot,
            hblk, hsc, hpbb, hpost, hpost2, hnext, calls, Event.kind, replay,
            Event.durableWrites] <;>
          (first
            | exact ⟨⟨_, _, _, ⟨rfl, rfl, rfl⟩, hpbb⟩, ⟨_, _, _, ⟨rfl, rfl, rfl⟩, hpbb, rfl⟩⟩
            | (intro x b c hx hb hc; subst hx hb hc; rw [hpbb]; exact Option.some_ne_none _))

/-! ## Post-processing and the order of invocations -/

/-- C13: when slot advance and both extractions succeed, whatever
`ProcessBeaconBlock` returns, `PostBlockProcess` is invoked exactly once, on the
durable context and with the decoded block; `ProcessBeaconBlock` is invoked exactly
once, on the speculative context, with that same block and the extracted
sidecars. -/
theorem PreBlocker_post_once {E B S : Type} (t : Abcitypes E B S) (h : Handler E B S)
    (s : Store) (req : RequestFinalizeBlock) (blk : B) (sc : S)
    (hslot : (h.chainService.ProcessSlot s).err = none)
    (hblk : t.ReadOnlyBeaconBlockFromABCIRequest req h.cfg.BeaconBlockPosition
      (h.chainService.ActiveForkVersionForSlot (Slot req.Height)) = .ok blk)
    (hsc : t.GetBlobSideCars req h.cfg.BlobSidecarsBlockPosition = .ok sc) :
    calls Kind.PostBlockProcess (PreBlocker t h (World.start s) req).1.trace = 1
    ∧ calls Kind.ProcessBeaconBlock (PreBlocker t h (World.start s) req).1.trace = 1
    ∧ (∃ x : Store, Event.PostBlockProcess Ctx.durable x blk
        ∈ (PreBlocker t h (World.start s) req).1.trace)
    ∧ (∀ (c : Ctx) (x : Store) (b : B),
        Event.PostBlockProcess c x b ∈ (PreBlocker t h (World.start s) req).1.trace →
          c = Ctx.durable ∧ b = blk)
    ∧ (∃ x : Store, Event.ProcessBeaconBlock Ctx.cache x blk sc
        ∈ (PreBlocker t h (World.start s) req).1.trace)
    ∧ (∀ (c : Ctx) (x : Store) (b : B) (sc2 : S),
        Event.ProcessBeaconBlock c x b sc2 ∈ (PreBlocker t h (World.start s) req).1.trace →
          c = Ctx.cache ∧ b = blk ∧ sc2 = sc) := by
  cases hpbb : (h.chainService.ProcessBeaconBlock
      (applyWrites (h.chainService.ProcessSlot s).writes s) blk sc).err <;>
    cases hnext : h.nextPreblock <;>
    cases hpost : (h.chainService.PostBlockProcess
      (applyWrites (h.chainService.ProcessSlot s).writes s) blk).err <;>
    cases hpost2 : (h.chainService.PostBlockProcess
      (applyWrites (h.chainService.ProcessBeaconBlock
        (applyWrites (h.chainService.ProcessSlot s).writes s) blk sc).writes
        (applyWrites (h.chainService.ProcessSlot s).writes s)) blk).err <;>
    simp [PreBlocker, callNextPreblockHandler, World.invoke, World.view, World.put, World.record,
      World.log, World.start, World.CacheContext, World.write, hslot, hblk, hsc,
      hpbb, hpost, hpost2, hnext, calls, Event.kind] <;>
    exact ⟨fun c x b hc _ hb => ⟨hc, hb⟩, fun c x b sc2 hc _ hb hs => ⟨hc, hb, hs⟩⟩

/-- C13, at concrete inputs: once with an accepted and once with a rejected
block. -/
theorem PreBlocker_post_once_witness :
    calls Kind.PostBlockProcess
        (PreBlocker demoTypes acceptingHandler (World.start []) goodReq).1.trace = 1
    ∧ calls Kind.PostBlockProcess
        (PreBlocker demoTypes rejectingHandler (World.start []) goodReq).1.trace = 1 :=
  ⟨(PreBlocker_post_once demoTypes acceptingHandler [] goodReq 42 [9, 9] rfl rfl rfl).1,
    (PreBlocker_post_once demoTypes rejectingHandler [] goodReq 42 [9, 9] rfl rfl rfl).1⟩

/-- C14: in every call the invocations made, in order, are an initial segment of
`ProcessSlot`, block extraction, sidecar extraction, opening of the speculative
context, `ProcessBeaconBlock`, `PostBlockProcess`, next handler, with the commit
function between `ProcessBeaconBlock` and `PostBlockProcess` only on success:
either the commit function is not called and no invocation of `ProcessBeaconBlock`
in the trace returned success, or it is called once, in that place, and the
invocation of `ProcessBeaconBlock` in the trace returned no error.
`ProcessSlot` is always invoked. When slot advance, both extractions,
`ProcessBeaconBlock` and `PostBlockProcess` succeed and no next handler is
configured, the invocations are the whole sequence up to `PostBlockProcess`, commit
included, and no error is returned. -/
theorem PreBlocker_invocation_order {E B S : Type} (t : Abcitypes E B S) (h : Handler E B S)
    (s : Store) (req : RequestFinalizeBlock) :
    (((PreBlocker t h (World.start s) req).1.trace.map Event.kind <+: uncommittedOrder
        ∧ calls Kind.write (PreBlocker t h (World.start s) req).1.trace = 0
        ∧ ∀ (c : Ctx) (x : Store) (blk : B) (sc : S),
            Event.ProcessBeaconBlock c x blk sc ∈ (PreBlocker t h (World.start s) req).1.trace →
            (h.chainService.ProcessBeaconBlock x blk sc).err ≠ none)
      ∨ ((PreBlocker t h (World.start s) req).1.trace.map Event.kind <+: committedOrder
        ∧ calls Kind.write (PreBlocker t h (World.start s) req).1.trace = 1
        ∧ ∃ (x : Store) (blk : B) (sc : S),
            Event.ProcessBeaconBlock Ctx.cache x blk sc
              ∈ (PreBlocker t h (World.start s) req).1.trace
            ∧ (h.chainService.ProcessBeaconBlock x blk sc).err = none
            ∧ Event.write (h.chainService.ProcessBeaconBlock x blk sc).writes
              ∈ (PreBlocker t h (World.start s) req).1.trace))
    ∧ (PreBlocker t h (World.start s) req).1.trace.head?
        = some (Event.ProcessSlot Ctx.durable s)
    ∧ (∀ (s1 : Store) (blk : B) (sc : S),
        (h.chainService.ProcessSlot s).err = none →
        t.ReadOnlyBeaconBlockFromABCIRequest req h.cfg.BeaconBlockPosition
          (h.chainService.ActiveForkVersionForSlot (Slot req.Height)) = .ok blk →
        t.GetBlobSideCars req h.cfg.BlobSidecarsBlockPosition = .ok sc →
        s1 = applyWrites (h.chainService.ProcessSlot s).writes s →
        (h.chainService.ProcessBeaconBlock s1 blk sc).err = none →
        (h.chainService.PostBlockProcess
          (applyWrites (h.chainService.ProcessBeaconBlock s1 blk sc).writes s1) blk).err = none →
        h.nextPreblock = none →
        (PreBlocker t h (World.start s) req).1.trace.map Event.kind
            = [Kind.ProcessSlot, Kind.ReadOnlyBeaconBlockFromABCIRequest, Kind.GetBlobSideCars,
                Kind.CacheContext, Kind.ProcessBeaconBlock, Kind.write, Kind.PostBlockProcess]
        ∧ (PreBlocker t h (World.start s) req).2 = none) := by
  refine ⟨?_, ?_, ?_⟩
  · cases hslot : (h.chainService.ProcessSlot s).err with
    | some e =>
      simp [PreBlocker, World.invoke, World.view, World.put, World.record, World.log,
        World.start, hslot, calls, Event.kind, uncommittedOrder]
    | none =>
      cases hblk : t.ReadOnlyBeaconBlockFromABCIRequest req h.cfg.BeaconBlockPosition
          (h.chainService.ActiveForkVersionForSlot (Slot req.Height)) with
      | error e =>
        simp [PreBlocker, World.invoke, World.view, World.put, World.record, World.log,
          World.start, hslot, hblk, calls, Event.kind, uncommittedOrder]
      | ok blk =>
        cases hsc : t.GetBlobSideCars req h.cfg.BlobSidecarsBlockPosition with
        | error e =>
          simp [PreBlocker, World.invoke, World.view, World.put, World.record, World.log,
            World.start, hslot, hblk, hsc, calls, Event.kind, uncommittedOrder]
        | ok sc =>
          cases hpbb : (h.chainService.ProcessBeaconBlock
              (applyWrites (h.chainService.ProcessSlot s).writes s) blk sc).err <;>
            cases hnext : h.nextPreblock <;>
            cases hpost : (h.chainService.PostBlockProcess
              (applyWrites (h.chainService.ProcessSlot s).writes s) blk).err <;>
            cases hpost2 : (h.chainService.PostBlockProcess
              (applyWrites (h.chainService.ProcessBeaconBlock
                (applyWrites (h.chainService.ProcessSlot s).writes s) blk sc).writes
                (applyWrites (h.chainService.ProcessSlot s).writes s)) blk).err <;>
            simp [PreBlocker, callNextPreblockHandler, World.invoke, World.view, World.put,
              World.record, World.log, World.start, World.CacheContext, World.write, hslot,
              hblk, hsc, hpbb, hpost, hpost2, hnext, calls, Event.kind, uncommittedOrder,
              committedOrder] <;>
            (first
              | exact ⟨_, _, _, ⟨rfl, rfl, rfl⟩, hpbb, rfl⟩
              | (intro c x b d _ hx hb hd; subst hx hb hd; rw [hpbb]
                 exact Option.some_ne_none _))
  · cases hslot : (h.chainService.ProcessSlot s).err with
    | some e =>
      simp [PreBlocker, World.invoke, World.view, World.put, World.record, World.log,
        World.start, hslot]
    | none =>
      cases hblk : t.ReadOnlyBeaconBlockFromABCIRequest req h.cfg.BeaconBlockPosition
          (h.chainService.ActiveForkVersionForSlot (Slot req.Height)) with
      | error e =>
        simp [PreBlocker, World.invoke, World.view, World.put, World.record, World.log,
          World.start, hslot, hblk]
      | ok blk =>
        cases hsc : t.GetBlobSideCars req h.cfg.BlobSidecarsBlockPosition with
        | error e =>
          simp [PreBlocker, World.invoke, World.view, World.put, World.record, World.log,
            World.start, hslot, hblk, hsc]
        | ok sc =>
          cases hpbb : (h.chainService.ProcessBeaconBlock
              (applyWrites (h.chainService.ProcessSlot s).writes s) blk sc).err <;>
            cases hnext : h.nextPreblock <;>
            cases hpost : (h.chainService.PostBlockProcess
              (applyWrites (h.chainService.ProcessSlot s).writes s) blk).err <;>
            cases hpost2 : (h.chainService.PostBlockProcess
              (applyWrites (h.chainService.ProcessBeaconBlock
                (applyWrites (h.chainService.ProcessSlot s).writes s) blk sc).writes
                (applyWrites (h.chainService.ProcessSlot s).writes s)) blk).err <;>
            simp [PreBlocker, callNextPreblockHandler, World.invoke, World.view, World.put,
              World.record, World.log, World.start, World.CacheContext, World.write, hslot,
              hblk, hsc, hpbb, hpost, hpost2, hnext]
  · intro s1 blk sc hslot hblk hsc hs1 hpbb hpost hnext
    subst hs1
    simp [PreBlocker, callNextPreblockHandler, World.invoke, World.view, World.put,
      World.record, World.log, World.start, World.CacheContext, World.write, hslot,
      hblk, hsc, hpbb, hpost, hnext, Event.kind]

/-- C14, at a concrete input: a well-formed request, every collaborator succeeding
and no next handler configured. -/
theorem PreBlocker_invocation_order_witness :
    (PreBlocker demoTypes lastHandler (World.start []) goodReq).1.trace.map Event.kind
        = [Kind.ProcessSlot, Kind.ReadOnlyBeaconBlockFromABCIRequest, Kind.GetBlobSideCars,
            Kind.CacheContext, Kind.ProcessBeaconBlock, Kind.write, Kind.PostBlockProcess]
    ∧ (PreBlocker demoTypes lastHandler (World.start []) goodReq).2 = none :=
  (PreBlocker_invocation_order demoTypes lastHandler [] goodReq).2.2 [([0], [1])] 42 [9, 9]
    rfl rfl rfl rfl rfl rfl rfl

/-! ## Arguments of the extractors, and extraction failures -/

/-- C15: once slot advance has succeeded, the block extractor is invoked exactly
once, with the request as received, the configured `BeaconBlockPosition` and the
fork version which `ActiveForkVersionForSlot` returns for `Slot req.Height`; the
slot of a height is the height modulo `2 ^ 64`, hence the height itself when it is
non-negative (and below `2 ^ 64`, as every 64-bit height is) and the height plus
`2 ^ 64` when it is a negative 64-bit number; and when the block is decoded, the
sidecar extractor is invoked exactly once, with the request as received and the
configured `BlobSidecarsBlockPosition`. -/
theorem PreBlocker_extraction_arguments {E B S : Type} (t : Abcitypes E B S)
    (h : Handler E B S) (s : Store) (req : RequestFinalizeBlock)
    (hslot : (h.chainService.ProcessSlot s).err = none) :
    calls Kind.ReadOnlyBeaconBlockFromABCIRequest (PreBlocker t h (World.start s) req).1.trace = 1
    ∧ (∀ (r : RequestFinalizeBlock) (p v : Nat),
        Event.ReadOnlyBeaconBlockFromABCIRequest r p v
          ∈ (PreBlocker t h (World.start s) req).1.trace
        ↔ (r = req ∧ p = h.cfg.BeaconBlockPosition
            ∧ v = h.chainService.ActiveForkVersionForSlot (Slot req.Height)))
    ∧ (∀ H : Int, (Slot H : Int) = H % 2 ^ 64)
    ∧ (∀ H : Int, 0 ≤ H → H < 2 ^ 64 → (Slot H : Int) = H)
    ∧ (∀ H : Int, H < 0 → -(2 ^ 63) ≤ H → (Slot H : Int) = H + 2 ^ 64)
    ∧ (∀ blk : B, t.ReadOnlyBeaconBlockFromABCIRequest req h.cfg.BeaconBlockPosition
          (h.chainService.ActiveForkVersionForSlot (Slot req.Height)) = .ok blk →
        calls Kind.GetBlobSideCars (PreBlocker t h (World.start s) req).1.trace = 1
        ∧ ∀ (r : RequestFinalizeBlock) (p : Nat),
            Event.GetBlobSideCars r p ∈ (PreBlocker t h (World.start s) req).1.trace
            ↔ (r = req ∧ p = h.cfg.BlobSidecarsBlockPosition)) := by
  have hmod : ∀ H : Int, (Slot H : Int) = H % 2 ^ 64 := by
    intro H
    unfold Slot
    exact Int.toNat_of_nonneg (Int.emod_nonneg H (by norm_num))
  refine ⟨?_, ?_, hmod, ?_, ?_, ?_⟩
  · cases hblk : t.ReadOnlyBeaconBlockFromABCIRequest req h.cfg.BeaconBlockPosition
        (h.chainService.ActiveForkVersionForSlot (Slot req.Height)) with
    | error e =>
      simp [PreBlocker, World.invoke, World.view, World.put, World.record, World.log,
        World.start, hslot, hblk, calls, Event.kind]
    | ok blk =>
      cases hsc : t.GetBlobSideCars req h.cfg.BlobSidecarsBlockPosition with
      | error e =>
        simp [PreBlocker, World.invoke, World.view, World.put, World.record, World.log,
          World.start, hslot, hblk, hsc, calls, Event.kind]
      | ok sc =>
        cases hpbb : (h.chainService.ProcessBeaconBlock
            (applyWrites (h.chainService.ProcessSlot s).writes s) blk sc).err <;>
          cases hnext : h.nextPreblock <;>
          cases hpost : (h.chainService.PostBlockProcess
            (applyWrites (h.chainService.ProcessSlot s).writes s) blk).err <;>
          cases hpost2 : (h.chainService.PostBlockProcess
            (applyWrites (h.chainService.ProcessBeaconBlock
              (applyWrites (h.chainService.ProcessSlot s).writes s) blk sc).writes
              (applyWrites (h.chainService.ProcessSlot s).writes s)) blk).err <;>
          simp [PreBlocker, callNextPreblockHandler, World.invoke, World.view, World.put,
            World.record, World.log, World.start, World.CacheContext, World.write, hslot,
            hblk, hsc, hpbb, hpost, hpost2, hnext, calls, Event.kind]
  · cases hblk : t.ReadOnlyBeaconBlockFromABCIRequest req h.cfg.BeaconBlockPosition
        (h.chainService.ActiveForkVersionForSlot (Slot req.Height)) with
    | error e =>
      simp [PreBlocker, World.invoke, World.view, World.put, World.record, World.log,
        World.start, hslot, hblk, calls, Event.kind]
    | ok blk =>
      cases hsc : t.GetBlobSideCars req h.cfg.BlobSidecarsBlockPosition with
      | error e =>
        simp [PreBlocker, World.invoke, World.view, World.put, World.record, World.log,
          World.start, hslot, hblk, hsc, calls, Event.kind]
      | ok sc =>
        cases hpbb : (h.chainService.ProcessBeaconBlock
            (applyWrites (h.chainService.ProcessSlot s).writes s) blk sc).err <;>
          cases hnext : h.nextPreblock <;>
          cases hpost : (h.chainService.PostBlockProcess
            (applyWrites (h.chainService.ProcessSlot s).writes s) blk).err <;>
          cases hpost2 : (h.chainService.PostBlockProcess
            (applyWrites (h.chainService.ProcessBeaconBlock
              (applyWrites (h.chainService.ProcessSlot s).writes s) blk sc).writes
              (applyWrites (h.chainService.ProcessSlot s).writes s)) blk).err <;>
          simp [PreBlocker, callNextPreblockHandler, World.invoke, World.view, World.put,
            World.record, World.log, World.start, World.CacheContext, World.write, hslot,
            hblk, hsc, hpbb, hpost, hpost2, hnext, calls, Event.kind]
  · intro H h0 h1
    rw [hmod]
    exact Int.emod_eq_of_lt h0 h1
  · intro H h0 h1
    rw [hmod]
    omega
  · intro blk hblk
    cases hsc : t.GetBlobSideCars req h.cfg.BlobSidecarsBlockPosition with
    | error e =>
      simp [PreBlocker, World.invoke, World.view, World.put, World.record, World.log,
        World.start, hslot, hblk, hsc, calls, Event.kind]
    | ok sc =>
      cases hpbb : (h.chainService.ProcessBeaconBlock
          (applyWrites (h.chainService.ProcessSlot s).writes s) blk sc).err <;>
        cases hnext : h.nextPreblock <;>
        cases hpost : (h.chainService.PostBlockProcess
          (applyWrites (h.chainService.ProcessSlot s).writes s) blk).err <;>
        cases hpost2 : (h.chainService.PostBlockProcess
          (applyWrites (h.chainService.ProcessBeaconBlock
            (applyWrites (h.chainService.ProcessSlot s).writes s) blk sc).writes
            (applyWrites (h.chainService.ProcessSlot s).writes s)) blk).err <;>
        simp [PreBlocker, callNextPreblockHandler, World.invoke, World.view, World.put,
          World.record, World.log, World.start, World.CacheContext, World.write, hslot,
          hblk, hsc, hpbb, hpost, hpost2, hnext, calls, Event.kind]

/-- C15, at a concrete input: a request at height 5, block position 0, fork
version 0. -/
theorem PreBlocker_extraction_arguments_witness :
    calls Kind.ReadOnlyBeaconBlockFromABCIRequest
        (PreBlocker demoTypes acceptingHandler (World.start []) goodReq).1.trace = 1
    ∧ Event.ReadOnlyBeaconBlockFromABCIRequest goodReq 0 0
        ∈ (PreBlocker demoTypes acceptingHandler (World.start []) goodReq).1.trace
    ∧ (Slot 5 : Int) = 5
    ∧ calls Kind.GetBlobSideCars
        (PreBlocker demoTypes acceptingHandler (World.start []) goodReq).1.trace = 1
    ∧ Event.GetBlobSideCars goodReq 1
        ∈ (PreBlocker demoTypes acceptingHandler (World.start []) goodReq).1.trace :=
  ⟨(PreBlocker_extraction_arguments demoTypes acceptingHandler [] goodReq rfl).1,
    ((PreBlocker_extraction_arguments demoTypes acceptingHandler [] goodReq rfl).2.1
      goodReq 0 0).2 ⟨rfl, rfl, rfl⟩,
    (PreBlocker_extraction_arguments demoTypes acceptingHandler [] goodReq rfl).2.2.2.1 5
      (by decide) (by decide),
    ((PreBlocker_extraction_arguments demoTypes acceptingHandler [] goodReq rfl).2.2.2.2.2
      42 rfl).1,
    (((PreBlocker_extraction_arguments demoTypes acceptingHandler [] goodReq rfl).2.2.2.2.2
      42 rfl).2 goodReq 1).2 ⟨rfl, rfl⟩⟩

/-- C16: when `ProcessSlot` succeeds and block extraction or sidecar extraction
fails with an error `e`, `PreBlocker` returns `e` and the durable state it leaves is
exactly the durable state produced by `ProcessSlot`: the state before the call with
the writes of slot advance applied, which were made on the durable context and are
not rolled back; the commit function, `PostBlockProcess` and the next handler are
not invoked, so nothing else is written. -/
theorem PreBlocker_extraction_failure_state {E B S : Type} (t : Abcitypes E B S)
    (h : Handler E B S) (s : Store) (req : RequestFinalizeBlock) (e : E)
    (hslot : (h.chainService.ProcessSlot s).err = none)
    (hfail : t.ReadOnlyBeaconBlockFromABCIRequest req h.cfg.BeaconBlockPosition
        (h.chainService.ActiveForkVersionForSlot (Slot req.Height)) = .error e
      ∨ ∃ blk : B, t.ReadOnlyBeaconBlockFromABCIRequest req h.cfg.BeaconBlockPosition
          (h.chainService.ActiveForkVersionForSlot (Slot req.Height)) = .ok blk
        ∧ t.GetBlobSideCars req h.cfg.BlobSidecarsBlockPosition = .error e) :
    (PreBlocker t h (World.start s) req).2 = some e
    ∧ (PreBlocker t h (World.start s) req).1.durable
        = applyWrites (h.chainService.ProcessSlot s).writes s
    ∧ Event.ProcessSlot Ctx.durable s ∈ (PreBlocker t h (World.start s) req).1.trace
    ∧ calls Kind.write (PreBlocker t h (World.start s) req).1.trace = 0
    ∧ calls Kind.PostBlockProcess (PreBlocker t h (World.start s) req).1.trace = 0
    ∧ calls Kind.nextPreblock (PreBlocker t h (World.start s) req).1.trace = 0 := by
  rcases hfail with hblk | ⟨blk, hblk, hsc⟩
  · simp [PreBlocker, World.invoke, World.view, World.put, World.record, World.start,
      hslot, hblk, calls, Event.kind]
  · simp [PreBlocker, World.invoke, World.view, World.put, World.record, World.start,
      hslot, hblk, hsc, calls, Event.kind]

/-- C16, at concrete inputs: a malformed block field, and a well-formed block
with a missing sidecar field; slot advance has set key 0 and that stays. -/
theorem PreBlocker_extraction_failure_state_witness :
    ((PreBlocker demoTypes acceptingHandler (World.start []) badReq).2 = some 7
      ∧ (PreBlocker demoTypes acceptingHandler (World.start []) badReq).1.durable
          = [([0], [1])])
    ∧ ((PreBlocker demoTypes acceptingHandler (World.start []) bareReq).2 = some 8
      ∧ (PreBlocker demoTypes acceptingHandler (World.start []) bareReq).1.durable
          = [([0], [1])]) :=
  ⟨⟨(PreBlocker_extraction_failure_state demoTypes acceptingHandler [] badReq 7 rfl
        (Or.inl rfl)).1,
      (PreBlocker_extraction_failure_state demoTypes acceptingHandler [] badReq 7 rfl
        (Or.inl rfl)).2.1⟩,
    ⟨(PreBlocker_extraction_failure_state demoTypes acceptingHandler [] bareReq 8 rfl
        (Or.inr ⟨42, rfl, rfl⟩)).1,
      (PreBlocker_extraction_failure_state demoTypes acceptingHandler [] bareReq 8 rfl
        (Or.inr ⟨42, rfl, rfl⟩)).2.1⟩⟩

/-- C17: when slot advance and block decoding succeed and sidecar extraction
returns an error `e`, whichever it is, `PreBlocker` returns exactly `e` and stops:
its invocations are `ProcessSlot` and the two extractors only; no speculative
context is opened, and `ProcessBeaconBlock`, the commit function, `PostBlockProcess`
and the next handler are not invoked. -/
theorem PreBlocker_sidecar_error {E B S : Type} (t : Abcitypes E B S) (h : Handler E B S)
    (s : Store) (req : RequestFinalizeBlock) (blk : B) (e : E)
    (hslot : (h.chainService.ProcessSlot s).err = none)
    (hblk : t.ReadOnlyBeaconBlockFromABCIRequest req h.cfg.BeaconBlockPosition
      (h.chainService.ActiveForkVersionForSlot (Slot req.Height)) = .ok blk)
    (hsc : t.GetBlobSideCars req h.cfg.BlobSidecarsBlockPosition = .error e) :
    (PreBlocker t h (World.start s) req).2 = some e
    ∧ (PreBlocker t h (World.start s) req).1.trace
        = [Event.ProcessSlot Ctx.durable s,
           Event.ReadOnlyBeaconBlockFromABCIRequest req h.cfg.BeaconBlockPosition
             (h.chainService.ActiveForkVersionForSlot (Slot req.Height)),
           Event.GetBlobSideCars req h.cfg.BlobSidecarsBlockPosition]
    ∧ calls Kind.CacheContext (PreBlocker t h (World.start s) req).1.trace = 0
    ∧ (PreBlocker t h (World.start s) req).1.cache = none
    ∧ calls Kind.ProcessBeaconBlock (PreBlocker t h (World.start s) req).1.trace = 0
    ∧ calls Kind.write (PreBlocker t h (World.start s) req).1.trace = 0
    ∧ calls Kind.PostBlockProcess (PreBlocker t h (World.start s) req).1.trace = 0
    ∧ calls Kind.nextPreblock (PreBlocker t h (World.start s) req).1.trace = 0 := by
  simp [PreBlocker, World.invoke, World.view, World.put, World.record, World.start,
    hslot, hblk, hsc, calls, Event.kind]

/-- C17, at concrete inputs: a missing sidecar field (error 8) and an empty one
(error 9) are treated alike. -/
theorem PreBlocker_sidecar_error_witness :
    ((PreBlocker strictTypes acceptingHandler (World.start []) bareReq).2 = some 8
      ∧ (PreBlocker strictTypes acceptingHandler (World.start []) bareReq).1.trace
          = [Event.ProcessSlot Ctx.durable [],
             Event.ReadOnlyBeaconBlockFromABCIRequest bareReq 0 0,
             Event.GetBlobSideCars bareReq 1])
    ∧ ((PreBlocker strictTypes acceptingHandler (World.start []) badSidecarReq).2 = some 9
      ∧ (PreBlocker strictTypes acceptingHandler (World.start []) badSidecarReq).1.trace
          = [Event.ProcessSlot Ctx.durable [],
             Event.ReadOnlyBeaconBlockFromABCIRequest badSidecarReq 0 0,
             Event.GetBlobSideCars badSidecarReq 1]) :=
  ⟨⟨(PreBlocker_sidecar_error strictTypes acceptingHandler [] bareReq 42 8 rfl rfl rfl).1,
      (PreBlocker_sidecar_error strictTypes acceptingHandler [] bareReq 42 8 rfl rfl rfl).2.1⟩,
    ⟨(PreBlocker_sidecar_error strictTypes acceptingHandler [] badSidecarReq 42 9
        rfl rfl rfl).1,
      (PreBlocker_sidecar_error strictTypes acceptingHandler [] badSidecarReq 42 9
        rfl rfl rfl).2.1⟩⟩

end BeaconKit
